import Mathlib

/-!
Shallow embedding of the submission/interrupt core of the intel-gpu-i915
backports driver, together with proofs about the embedded operations.

The definitions below are translated from the C sources under
`drivers/gpu/drm/i915/`:

* `gem/i915_gem_wait_user_fence.c` — the user-fence wait ioctl
  (`ufence_compare`, argument validation);
* `gt/intel_engine_cs.c` — engine idle detection
  (`intel_engine_is_idle`, `ring_is_idle`);
* `i915_irq.c` — top-level interrupt handlers, the hardware-error
  dispatch hierarchy and its counters;
* `gt/intel_context.c` and `i915_gem_ww.c` — context pinning and the
  wound-wait backoff loop.

Machine integers are modelled as `Nat` with explicit reduction modulo
`2 ^ w` where the C code relies on fixed-width overflow; syscall-style
errors are negative `Int` return codes, as in the kernel.  Hardware
registers read by a handler are supplied as explicit inputs (the handler
reads each of them once per invocation), and register writes / log lines
/ uevents are returned as explicit data so that theorems can count them.
Numeric values of register *bit positions* and of uapi operator codes
live in headers that are not part of the inspected sources; they are
modelled as distinct small constants, and none of the proofs depend on
the particular values, only on their distinctness.
-/


/-! ### Kernel error numbers (include/uapi/asm-generic/errno-base.h) -/

def ENOENT : Int := 2

def EINTR : Int := 4

/-- Error number `EIO` (the name `EIO` itself is taken by the Lean core
library). -/
def EIO_errno : Int := 5

def ENOMEM : Int := 12

def EFAULT : Int := 14

def EINVAL : Int := 22

def EDEADLK : Int := 35

def ETIME : Int := 62

def ERESTARTSYS : Int := 512

/-! ## User-fence wait ioctl (`gem/i915_gem_wait_user_fence.c`)

Claims C9 and C10. -/

/-! Operator codes of the `prelim_drm_i915_gem_wait_user_fence` uapi.
The header defining them is not among the inspected sources; the codes
are modelled as distinct naturals (the proofs only use distinctness). -/

def PRELIM_I915_UFENCE_WAIT_EQ : Nat := 0

def PRELIM_I915_UFENCE_WAIT_NEQ : Nat := 1

def PRELIM_I915_UFENCE_WAIT_GT : Nat := 2

def PRELIM_I915_UFENCE_WAIT_GTE : Nat := 3

def PRELIM_I915_UFENCE_WAIT_LT : Nat := 4

def PRELIM_I915_UFENCE_WAIT_LTE : Nat := 5

def PRELIM_I915_UFENCE_WAIT_AFTER : Nat := 6

def PRELIM_I915_UFENCE_WAIT_BEFORE : Nat := 7

/-- Flag bit `PRELIM_I915_UFENCE_WAIT_SOFT` (modelled bit position). -/
def PRELIM_I915_UFENCE_WAIT_SOFT : Nat := 2 ^ 15

/-- Flag bit `PRELIM_I915_UFENCE_WAIT_ABSTIME` (modelled bit position). -/
def PRELIM_I915_UFENCE_WAIT_ABSTIME : Nat := 2 ^ 14

/-- Value `2^64`, the wrap-around modulus of the C type `u64`. -/
def U64 : Nat := 2 ^ 64

/-- Two's-complement reinterpretation of the low `bits` bits of `x`,
modelling C casts such as `(s8)x`, `(s16)x`, `(s32)x`, `(s64)x`. -/
def toSigned (bits : Nat) (x : Nat) : Int :=
  if x % 2 ^ bits < 2 ^ (bits - 1) then ((x % 2 ^ bits : Nat) : Int)
  else ((x % 2 ^ bits : Nat) : Int) - 2 ^ bits

/-- Wrapping `u64` subtraction `a - b`, as computed by C on `u64`
operands. -/
def usub64 (a b : Nat) : Nat := (a % U64 + U64 - b % U64) % U64

/-- Embedding of `ufence_compare` (`i915_gem_wait_user_fence.c:35`).
The inputs are the operand width in bytes (`wake->width`), the operator
code (`wake->op`), the comparison mask and value (`wake->mask`,
`wake->value`) and the `width`-byte value `mem` read from the user
address (`__copy_from_user_inatomic_nocache` fills only `width` bytes of
`target`; the leftover bytes are erased by `target &= wake->mask`
because the mask fits in `width` bytes, so `mem` models the masked-in
memory content).  The fault path (`remaining != 0`) is not part of the
comparison semantics and is omitted here. -/
def ufence_compare (width op mask value mem : Nat) : Bool :=
  -- target &= wake->mask; value = wake->value & wake->mask;
  let target := mem &&& mask
  let value := value &&& mask
  if op = PRELIM_I915_UFENCE_WAIT_EQ then value = target
  else if op = PRELIM_I915_UFENCE_WAIT_NEQ then value ≠ target
  else if op = PRELIM_I915_UFENCE_WAIT_GT then decide (value < target)
  else if op = PRELIM_I915_UFENCE_WAIT_GTE then decide (value ≤ target)
  else if op = PRELIM_I915_UFENCE_WAIT_LT then decide (target < value)
  else if op = PRELIM_I915_UFENCE_WAIT_LTE then decide (target ≤ value)
  else if op = PRELIM_I915_UFENCE_WAIT_AFTER then
    if width = 1 then decide (0 < toSigned 8 (usub64 target value))
    else if width = 2 then decide (0 < toSigned 16 (usub64 target value))
    else if width = 4 then decide (0 < toSigned 32 (usub64 target value))
    else decide (0 < toSigned 64 (usub64 target value))
  else if op = PRELIM_I915_UFENCE_WAIT_BEFORE then
    if width = 1 then decide (toSigned 8 (usub64 target value) < 0)
    else if width = 2 then decide (toSigned 16 (usub64 target value) < 0)
    else if width = 4 then decide (toSigned 32 (usub64 target value) < 0)
    else decide (toSigned 64 (usub64 target value) < 0)
  else
    -- default: return true (unreachable through the ioctl, which has
    -- already rejected every other op with -EINVAL)
    true

/-- Fuel-driven helper for `fls64`; the fuel bounds the number of
halvings, which keeps the recursion structural (and hence computable by
`decide`). -/
def flsAux : Nat → Nat → Nat
  | 0, _ => 0
  | fuel + 1, n => if n = 0 then 0 else flsAux fuel (n / 2) + 1

/-- Embedding of the kernel `fls64` (find last set) on a `u64` operand:
one-based position of the highest set bit, `0` for `0`. -/
def fls64 (n : Nat) : Nat := flsAux 64 n

/-- Embedding of the kernel `roundup_pow_of_two`
(`1UL << fls_long(n - 1)`). -/
def roundup_pow_of_two (n : Nat) : Nat := 2 ^ fls64 (n - 1)

/-- Value `PAGE_SHIFT` for the 4 KiB pages assumed by the driver. -/
def PAGE_SHIFT : Nat := 12

/-- Relevant fields of `struct prelim_drm_i915_gem_wait_user_fence`. -/
structure WaitUserFenceArgs where
  flags : Nat
  op : Nat
  mask : Nat
  value : Nat
  addr : Nat

/-- Validated comparison parameters, mirroring `struct ufence_wake`. -/
structure UfenceWake where
  width : Nat
  op : Nat
  mask : Nat
  value : Nat
  addr : Nat
deriving DecidableEq

/-- Outcome of the argument-validation prefix of the ioctl: either an
early rejection with an error code, or the validated `ufence_wake`
parameters with which the ioctl goes on to touch the user memory. -/
inductive UfenceVerdict where
  | rejected (err : Int)
  | proceeds (wake : UfenceWake)
deriving DecidableEq

/-- Test whether `op` is one of the eight accepted operator codes, as
enumerated by the `switch (arg->op)` in the ioctl. -/
def ufence_valid_op (op : Nat) : Bool :=
  op = PRELIM_I915_UFENCE_WAIT_EQ || op = PRELIM_I915_UFENCE_WAIT_NEQ ||
  op = PRELIM_I915_UFENCE_WAIT_GT || op = PRELIM_I915_UFENCE_WAIT_GTE ||
  op = PRELIM_I915_UFENCE_WAIT_LT || op = PRELIM_I915_UFENCE_WAIT_LTE ||
  op = PRELIM_I915_UFENCE_WAIT_AFTER || op = PRELIM_I915_UFENCE_WAIT_BEFORE

/-- Operand width in bytes derived from the mask, as computed at
`i915_gem_wait_user_fence.c:240-245`:
`width = fls64(mask); width = DIV_ROUND_UP(roundup_pow_of_two(width), 8)`. -/
def ufence_width_of_mask (mask : Nat) : Nat :=
  (roundup_pow_of_two (fls64 mask) + 7) / 8

/-- Embedding of the argument-validation prefix of
`i915_gem_wait_user_fence_ioctl` (`i915_gem_wait_user_fence.c:222-263`),
up to the point where the validated parameters are assembled.  Every
check below happens before the ioctl touches the watched memory
location (`ufence_fault` / `ufence_compare` run only on the
`proceeds` outcome).  The C test `arg->flags & ~(SOFT | ABSTIME)` is
rendered as `flags &&& (SOFT ||| ABSTIME) ≠ flags`, which holds exactly
when some flag bit outside the two permitted ones is set. -/
def i915_gem_wait_user_fence_validate (a : WaitUserFenceArgs) : UfenceVerdict :=
  if a.flags &&& (PRELIM_I915_UFENCE_WAIT_SOFT ||| PRELIM_I915_UFENCE_WAIT_ABSTIME)
      ≠ a.flags then
    .rejected (-EINVAL)
  else if ¬ ufence_valid_op a.op then
    .rejected (-EINVAL)
  else if fls64 a.mask = 0 then
    -- wake.width = fls64(arg->mask); if (!wake.width) return -EINVAL;
    .rejected (-EINVAL)
  else
    -- Restrict the user address to be "naturally" aligned
    if a.addr % ufence_width_of_mask a.mask ≠ 0 then
      .rejected (-EINVAL)
    else
      .proceeds { width := ufence_width_of_mask a.mask, op := a.op,
                  mask := a.mask, value := a.value, addr := a.addr }

/-! ### Lemmas about the user-fence embedding -/

/-! ## Engine idle detection (`gt/intel_engine_cs.c`)

Claim C8.  `intel_engine_is_idle` (line 1777) composes the wedged check,
the power check, the submission-queue check and — only for backends that
own the ring registers — the register check `ring_is_idle` (line 1714).
The register bit-position constants live in headers outside the
inspected sources and are modelled with their customary values; no proof
depends on the particular values. -/

/-- Mask `HEAD_ADDR` applied to the `RING_HEAD` register (modelled
value). -/
def HEAD_ADDR : Nat := 0x001FFFFC

/-- Mask `TAIL_ADDR` applied to the `RING_TAIL` register (modelled
value). -/
def TAIL_ADDR : Nat := 0x001FFFF8

/-- Bit `MODE_IDLE` of the `RING_MI_MODE` register (modelled value). -/
def MODE_IDLE : Nat := 2 ^ 9

/-- State observed by `intel_engine_is_idle`, one field per collaborator
query or register read performed by the function. -/
structure EngineState where
  /-- Result of `intel_gt_is_wedged(engine->gt)`. -/
  gtWedged : Bool
  /-- Result of `intel_engine_pm_is_awake(engine)`. -/
  pmAwake : Bool
  /-- Result of `i915_sched_engine_is_empty(engine->sched_engine)`,
  sampled after `intel_engine_flush_submission`. -/
  schedEngineEmpty : Bool
  /-- Result of `intel_engine_uses_guc(engine)`. -/
  usesGuc : Bool
  /-- Result of `intel_engine_pm_get_if_awake(engine)` inside
  `ring_is_idle`. -/
  pmGetIfAwake : Bool
  /-- Value read from `RING_HEAD`. -/
  ringHead : Nat
  /-- Value read from `RING_TAIL`. -/
  ringTail : Nat
  /-- Value read from `RING_MI_MODE`. -/
  ringMiMode : Nat
deriving DecidableEq

/-- Embedding of `ring_is_idle` (`intel_engine_cs.c:1714`) for a
production build (the `I915_SELFTEST_ONLY(!engine->mmio_base)` escape
compiles to `false` outside selftest builds). -/
def ring_is_idle (e : EngineState) : Bool :=
  if ¬ e.pmGetIfAwake then true
  else
    -- First check that no commands are left in the ring,
    -- then the CS parser idle bit.
    decide ((e.ringHead &&& HEAD_ADDR) = (e.ringTail &&& TAIL_ADDR)) &&
    decide (e.ringMiMode &&& MODE_IDLE ≠ 0)

/-- Embedding of `intel_engine_is_idle` (`intel_engine_cs.c:1777`).
`intel_synchronize_hardirq` and `intel_engine_flush_submission` only
affect when `schedEngineEmpty` is sampled, not the decision logic. -/
def intel_engine_is_idle (e : EngineState) : Bool :=
  if e.gtWedged then true
  else if ¬ e.pmAwake then true
  else if ¬ e.schedEngineEmpty then false
  else if e.usesGuc then false
  else ring_is_idle e

/-- Whether an invocation of `intel_engine_is_idle` performs an
`ENGINE_READ` of the ring registers: exactly on the path that reaches
the register comparisons inside `ring_is_idle`. -/
def intel_engine_is_idle_reads_ring_regs (e : EngineState) : Bool :=
  !e.gtWedged && e.pmAwake && e.schedEngineEmpty && !e.usesGuc &&
    e.pmGetIfAwake

/-- Modelled from the spec: the observable footprint, within the state
read by `intel_engine_is_idle`, of an engine that holds one submitted,
not yet completed request (the request/scheduler machinery itself is
outside the inspected sources).  Such a request is either still queued
in the scheduler (`schedEngineEmpty = false`), or executing under the
GuC backend (whose `is_idle` never consults registers), or executing
with ring registers showing work: head differing from tail, or the
command-streamer idle bit clear. -/
def engine_has_active_request (e : EngineState) : Prop :=
  e.schedEngineEmpty = false ∨ e.usesGuc = true ∨
  (e.pmGetIfAwake = true ∧
    ¬ ((e.ringHead &&& HEAD_ADDR) = (e.ringTail &&& TAIL_ADDR))) ∨
  (e.pmGetIfAwake = true ∧ e.ringMiMode &&& MODE_IDLE = 0)

/-! ## Top-level interrupt handlers (`i915_irq.c`)

Claim C4.  `gen11_irq_handler` (line 2648) and `dg1_irq_handler`
(line 2705) disable the top-level master interrupt enable register,
snapshot the pending sources, dispatch, and re-enable — except on the
DPC-containment path of `dg1_irq_handler` (line 2744), which returns
`IRQ_HANDLED` without re-enabling when a tile's `GEN11_GFX_MSTR_IRQ`
read returns all ones (device inaccessible).  The dispatched
sub-handlers (`gen11_gt_irq_handler`, display, GU misc) never touch the
top-level master enable register, so only the control flow of the two
top-level functions is modelled. -/

/-- Return values `IRQ_NONE` / `IRQ_HANDLED` of a kernel irq handler. -/
inductive IrqRetval where
  | irqNone
  | irqHandled
deriving DecidableEq

/-- Outcome of one top-level handler invocation: the return value,
whether the handler wrote `0` to the top-level master enable register,
and whether it re-enabled that register before returning. -/
structure IrqOutcome where
  ret : IrqRetval
  disabledMaster : Bool
  reenabledMaster : Bool
deriving DecidableEq

/-- Embedding of `gen11_irq_handler` (`i915_irq.c:2648`).  Inputs: the
`intel_irqs_enabled` test and the `GEN11_GFX_MSTR_IRQ` value read by
`gen11_master_intr_disable` after the disabling write. -/
def gen11_irq_handler (irqsEnabled : Bool) (masterCtl : Nat) : IrqOutcome :=
  if ¬ irqsEnabled then
    { ret := .irqNone, disabledMaster := false, reenabledMaster := false }
  else if masterCtl = 0 then
    -- gen11_master_intr_enable(regs); return IRQ_NONE;
    { ret := .irqNone, disabledMaster := true, reenabledMaster := true }
  else
    -- dispatch, gen11_master_intr_enable(regs), return IRQ_HANDLED
    { ret := .irqHandled, disabledMaster := true, reenabledMaster := true }

/-- Per-tile inputs of the `for_each_gt` loop in `dg1_irq_handler`: the
tile's type check (`gt->type == GT_MEDIA`) and the value its
`GEN11_GFX_MSTR_IRQ` read returns.  The tile's position in the list is
its index `i` in the loop. -/
structure GtTile where
  isMedia : Bool
  masterCtl : Nat
deriving DecidableEq

/-- Embedding of the `for_each_gt` loop body of `dg1_irq_handler`
(`i915_irq.c:2723-2764`).  Returns `true` when the loop runs to
completion (so the handler goes on to re-enable the master register) and
`false` when the DPC-containment early `return IRQ_HANDLED` is taken
because a processed tile's master register read is all ones. -/
def dg1_process_tiles (masterTileCtl : Nat) : Nat → List GtTile → Bool
  | _, [] => true
  | i, t :: ts =>
    if ¬ masterTileCtl.testBit i then dg1_process_tiles masterTileCtl (i + 1) ts
    else if t.isMedia then
      -- drm_WARN_ON_ONCE(...); continue;
      dg1_process_tiles masterTileCtl (i + 1) ts
    else if t.masterCtl = 2 ^ 32 - 1 then
      -- device might be in DPC containment: return IRQ_HANDLED
      false
    else
      -- ack GEN11_GFX_MSTR_IRQ, dispatch gt / iaf / hw-error / display
      dg1_process_tiles masterTileCtl (i + 1) ts

/-- Embedding of `dg1_irq_handler` (`i915_irq.c:2705`).  Inputs: the
`intel_irqs_enabled` test, the `DG1_MSTR_TILE_INTR` value read by
`dg1_master_intr_disable` after the disabling write, and the per-tile
inputs of the loop. -/
def dg1_irq_handler (irqsEnabled : Bool) (masterTileCtl : Nat)
    (tiles : List GtTile) : IrqOutcome :=
  if ¬ irqsEnabled then
    { ret := .irqNone, disabledMaster := false, reenabledMaster := false }
  else if masterTileCtl = 0 then
    -- dg1_master_intr_enable(t0_regs); return IRQ_NONE;
    { ret := .irqNone, disabledMaster := true, reenabledMaster := true }
  else if dg1_process_tiles masterTileCtl 0 tiles then
    -- dg1_master_intr_enable(t0_regs); ...; return IRQ_HANDLED;
    { ret := .irqHandled, disabledMaster := true, reenabledMaster := true }
  else
    -- early return IRQ_HANDLED from inside the loop: no re-enable
    { ret := .irqHandled, disabledMaster := true, reenabledMaster := false }

/-! ## Hardware-error classifier (`i915_irq.c`)

Claims C5, C6 and C7.  The dispatch hierarchy reads per-class status
registers, counts per-category errors, logs, and (for memory-sparing
events) schedules deferred health work.  Register bit positions, counter
indices and firmware cause codes live in headers outside the inspected
sources and are modelled as distinct constants; the proofs depend only
on distinctness. -/

/-- Severity classes of `enum hardware_error`. -/
inductive HwErr where
  | correctable
  | nonfatal
  | fatal
deriving DecidableEq

/-- Bound `GT_HW_ERROR_MAX_ERR_BITS` of the per-bit scans (modelled). -/
def GT_HW_ERROR_MAX_ERR_BITS : Nat := 16

/-! Correctable GT error status bits (modelled, distinct). -/

def L3_SNG_COR_ERR : Nat := 0

def GUC_COR_ERR : Nat := 1

def SAMPLER_COR_ERR : Nat := 2

def SLM_COR_ERR : Nat := 3

def EU_IC_COR_ERR : Nat := 4

def EU_GRF_COR_ERR : Nat := 5

/-- Mask `PVC_COR_ERR_MASK` of correctable bits defined on Ponte
Vecchio (modelled as covering the six named bits). -/
def PVC_COR_ERR_MASK : Nat := 2 ^ 6 - 1

/-! Fatal GT error status bits (modelled, distinct). -/

def ARRAY_BIST_FAT_ERR : Nat := 0

def FPU_UNCORR_FAT_ERR : Nat := 1

def L3_DOUBLE_FAT_ERR : Nat := 2

def L3_ECC_CHK_FAT_ERR : Nat := 3

def GUC_FAT_ERR : Nat := 4

def IDI_PAR_FAT_ERR : Nat := 5

def SQIDI_FAT_ERR : Nat := 6

def SAMPLER_FAT_ERR : Nat := 7

def SLM_FAT_ERR : Nat := 8

def EU_IC_FAT_ERR : Nat := 9

def EU_GRF_FAT_ERR : Nat := 10

/-- Mask `PVC_FAT_ERR_MASK` of fatal bits defined on Ponte Vecchio
(modelled as covering the eleven named bits). -/
def PVC_FAT_ERR_MASK : Nat := 2 ^ 11 - 1

/-! Counter indices of `gt->errors.hw[...]` (`enum intel_gt_hw_errors`,
modelled, distinct). -/

def INTEL_GT_HW_ERROR_COR_L3_SNG : Nat := 0

def INTEL_GT_HW_ERROR_COR_GUC : Nat := 1

def INTEL_GT_HW_ERROR_COR_SAMPLER : Nat := 2

def INTEL_GT_HW_ERROR_COR_SLM : Nat := 3

def INTEL_GT_HW_ERROR_COR_EU_IC : Nat := 4

def INTEL_GT_HW_ERROR_COR_EU_GRF : Nat := 5

def INTEL_GT_HW_ERROR_COR_SUBSLICE : Nat := 6

def INTEL_GT_HW_ERROR_COR_L3BANK : Nat := 7

def INTEL_GT_HW_ERROR_FAT_ARR_BIST : Nat := 8

def INTEL_GT_HW_ERROR_FAT_FPU : Nat := 9

def INTEL_GT_HW_ERROR_FAT_L3_DOUB : Nat := 10

def INTEL_GT_HW_ERROR_FAT_L3_ECC_CHK : Nat := 11

def INTEL_GT_HW_ERROR_FAT_GUC : Nat := 12

def INTEL_GT_HW_ERROR_FAT_IDI_PAR : Nat := 13

def INTEL_GT_HW_ERROR_FAT_SQIDI : Nat := 14

def INTEL_GT_HW_ERROR_FAT_SAMPLER : Nat := 15

def INTEL_GT_HW_ERROR_FAT_SLM : Nat := 16

def INTEL_GT_HW_ERROR_FAT_EU_IC : Nat := 17

def INTEL_GT_HW_ERROR_FAT_EU_GRF : Nat := 18

def INTEL_GT_HW_ERROR_FAT_SUBSLICE : Nat := 19

def INTEL_GT_HW_ERROR_FAT_L3BANK : Nat := 20

def INTEL_GT_HW_ERROR_FAT_TLB : Nat := 21

def INTEL_GT_HW_ERROR_FAT_L3_FABRIC : Nat := 22

/-- Increment of a counter array at one index (`x[i]++`). -/
def bump (f : Nat → Nat) (i : Nat) : Nat → Nat :=
  Function.update f i (f i + 1)

/-- Assignment of a counter array at one index (`x[i] = v`). -/
def setAt (f : Nat → Nat) (i : Nat) (v : Nat) : Nat → Nat :=
  Function.update f i v

/-- Addition into a counter array at one index (`x[i] += n`). -/
def addAt (f : Nat → Nat) (i : Nat) (n : Nat) : Nat → Nat :=
  Function.update f i (f i + n)

/-- Embedding of the kernel `for_each_set_bit(bit, &word, maxBits)`
loop: fold `step` over the set bits of `word` below `maxBits`, in
ascending order. -/
def for_each_set_bit {α : Type} (word maxBits : Nat) (step : α → Nat → α)
    (init : α) : α :=
  (List.range maxBits).foldl
    (fun a b => if word.testBit b then step a b else a) init

/-- Accumulated effects of one stats-update call: the counter array
`gt->errors.hw`, the number of `intel_gt_log_driver_error` calls
(driver-internal anomalies, "Undefined ..."), and the number of
`log_gt_hw_err` calls. -/
structure StatsOut where
  hw : Nat → Nat
  driverLogs : Nat
  hwLogs : Nat

/-- Per-bit body of the `for_each_set_bit` loop of
`gen12_gt_correctable_hw_error_stats_update` (`i915_irq.c:1776-1820`).
`slmCnt` is the value an `SLM_ECC_ERROR_CNTR` register read would
return. -/
def gt_cor_bit_update (isPVC : Bool) (slmCnt : Nat) (acc : StatsOut)
    (errbit : Nat) : StatsOut :=
  if isPVC ∧ ¬ PVC_COR_ERR_MASK.testBit errbit then
    { acc with driverLogs := acc.driverLogs + 1 }
  else if errbit = L3_SNG_COR_ERR then
    { acc with hw := bump acc.hw INTEL_GT_HW_ERROR_COR_L3_SNG,
               hwLogs := acc.hwLogs + 1 }
  else if errbit = GUC_COR_ERR then
    { acc with hw := bump acc.hw INTEL_GT_HW_ERROR_COR_GUC,
               hwLogs := acc.hwLogs + 1 }
  else if errbit = SAMPLER_COR_ERR then
    { acc with hw := bump acc.hw INTEL_GT_HW_ERROR_COR_SAMPLER,
               hwLogs := acc.hwLogs + 1 }
  else if errbit = SLM_COR_ERR then
    if ¬ isPVC then
      -- cnt = intel_uncore_read(SLM_ECC_ERROR_CNTR); hw[COR_SLM] = cnt;
      { acc with hw := setAt acc.hw INTEL_GT_HW_ERROR_COR_SLM slmCnt,
                 hwLogs := acc.hwLogs + 1 }
    else
      { acc with hw := bump acc.hw INTEL_GT_HW_ERROR_COR_SLM,
                 hwLogs := acc.hwLogs + 1 }
  else if errbit = EU_IC_COR_ERR then
    { acc with hw := bump acc.hw INTEL_GT_HW_ERROR_COR_EU_IC,
               hwLogs := acc.hwLogs + 1 }
  else if errbit = EU_GRF_COR_ERR then
    { acc with hw := bump acc.hw INTEL_GT_HW_ERROR_COR_EU_GRF,
               hwLogs := acc.hwLogs + 1 }
  else
    { acc with driverLogs := acc.driverLogs + 1 }

/-- Embedding of `gen12_gt_correctable_hw_error_stats_update`
(`i915_irq.c:1767`). -/
def gen12_gt_correctable_hw_error_stats_update (isPVC hasVectors : Bool)
    (slmCnt : Nat) (hw : Nat → Nat) (errstat : Nat) : StatsOut :=
  if errstat = 0 ∧ hasVectors then { hw := hw, driverLogs := 0, hwLogs := 0 }
  else
    for_each_set_bit errstat GT_HW_ERROR_MAX_ERR_BITS
      (gt_cor_bit_update isPVC slmCnt)
      { hw := hw, driverLogs := 0, hwLogs := 0 }

/-- Per-bit body of the `for_each_set_bit` loop of
`gen12_gt_fatal_hw_error_stats_update` (`i915_irq.c:1701-1764`). -/
def gt_fat_bit_update (isPVC : Bool) (slmCnt : Nat) (acc : StatsOut)
    (errbit : Nat) : StatsOut :=
  if isPVC ∧ ¬ PVC_FAT_ERR_MASK.testBit errbit then
    { acc with driverLogs := acc.driverLogs + 1 }
  else if errbit = ARRAY_BIST_FAT_ERR then
    { acc with hw := bump acc.hw INTEL_GT_HW_ERROR_FAT_ARR_BIST,
               hwLogs := acc.hwLogs + 1 }
  else if errbit = FPU_UNCORR_FAT_ERR then
    { acc with hw := bump acc.hw INTEL_GT_HW_ERROR_FAT_FPU,
               hwLogs := acc.hwLogs + 1 }
  else if errbit = L3_DOUBLE_FAT_ERR then
    { acc with hw := bump acc.hw INTEL_GT_HW_ERROR_FAT_L3_DOUB,
               hwLogs := acc.hwLogs + 1 }
  else if errbit = L3_ECC_CHK_FAT_ERR then
    { acc with hw := bump acc.hw INTEL_GT_HW_ERROR_FAT_L3_ECC_CHK,
               hwLogs := acc.hwLogs + 1 }
  else if errbit = GUC_FAT_ERR then
    { acc with hw := bump acc.hw INTEL_GT_HW_ERROR_FAT_GUC,
               hwLogs := acc.hwLogs + 1 }
  else if errbit = IDI_PAR_FAT_ERR then
    { acc with hw := bump acc.hw INTEL_GT_HW_ERROR_FAT_IDI_PAR,
               hwLogs := acc.hwLogs + 1 }
  else if errbit = SQIDI_FAT_ERR then
    { acc with hw := bump acc.hw INTEL_GT_HW_ERROR_FAT_SQIDI,
               hwLogs := acc.hwLogs + 1 }
  else if errbit = SAMPLER_FAT_ERR then
    { acc with hw := bump acc.hw INTEL_GT_HW_ERROR_FAT_SAMPLER,
               hwLogs := acc.hwLogs + 1 }
  else if errbit = SLM_FAT_ERR then
    if ¬ isPVC then
      { acc with hw := setAt acc.hw INTEL_GT_HW_ERROR_FAT_SLM slmCnt,
                 hwLogs := acc.hwLogs + 1 }
    else
      { acc with hw := bump acc.hw INTEL_GT_HW_ERROR_FAT_SLM,
                 hwLogs := acc.hwLogs + 1 }
  else if errbit = EU_IC_FAT_ERR then
    { acc with hw := bump acc.hw INTEL_GT_HW_ERROR_FAT_EU_IC,
               hwLogs := acc.hwLogs + 1 }
  else if errbit = EU_GRF_FAT_ERR then
    { acc with hw := bump acc.hw INTEL_GT_HW_ERROR_FAT_EU_GRF,
               hwLogs := acc.hwLogs + 1 }
  else
    { acc with driverLogs := acc.driverLogs + 1 }

/-- Embedding of `gen12_gt_fatal_hw_error_stats_update`
(`i915_irq.c:1693`). -/
def gen12_gt_fatal_hw_error_stats_update (isPVC hasVectors : Bool)
    (slmCnt : Nat) (hw : Nat → Nat) (errstat : Nat) : StatsOut :=
  if errstat = 0 ∧ hasVectors then { hw := hw, driverLogs := 0, hwLogs := 0 }
  else
    for_each_set_bit errstat GT_HW_ERROR_MAX_ERR_BITS
      (gt_fat_bit_update isPVC slmCnt)
      { hw := hw, driverLogs := 0, hwLogs := 0 }

/-- Embedding of `update_soc_hw_error_cnt` (`i915_irq.c:1533`): load the
xarray entry for `index`, add one, store it back.  The xarray is
modelled as a total map with default `0`; the `__xa_store` allocation
failure, which only logs the loss, has no counterpart on a pure map. -/
def update_soc_hw_error_cnt (soc : Nat → Nat) (index : Nat) : Nat → Nat :=
  bump soc index

/-- Per-category counters relevant to claim C6: `gt->errors.hw` and the
`gt->errors.soc` xarray. -/
structure ErrCounters where
  hw : Nat → Nat
  soc : Nat → Nat

/-- One observed hardware-error event, as consumed by the two cited
counter-update functions: a GT correctable error-status observation
(with the `SLM_ECC_ERROR_CNTR` value the hardware would report), or a
SOC error observation at an xarray index. -/
inductive HwErrObs where
  | gtCorrectable (errstat slmCnt : Nat)
  | socErr (index : Nat)

/-- One hardware-error interrupt handler invocation, restricted to its
counter updates: dispatch of one observation to the corresponding
cited update function. -/
def hw_error_stats_step (isPVC hasVectors : Bool) (s : ErrCounters) :
    HwErrObs → ErrCounters
  | .gtCorrectable errstat slmCnt =>
    { s with hw := (gen12_gt_correctable_hw_error_stats_update isPVC
        hasVectors slmCnt s.hw errstat).hw }
  | .socErr index => { s with soc := update_soc_hw_error_cnt s.soc index }

/-- Counter state after a sequence of hardware-error observations. -/
def hw_error_stats_run (isPVC hasVectors : Bool) (s : ErrCounters)
    (obs : List HwErrObs) : ErrCounters :=
  obs.foldl (hw_error_stats_step isPVC hasVectors) s

/-- Number of SOC observations at xarray index `idx` in a sequence. -/
def socObsCount (idx : Nat) (obs : List HwErrObs) : Nat :=
  obs.countP (fun o => match o with
    | .socErr j => j == idx
    | _ => false)

/-- Number of GT correctable observations whose status has bit `b`. -/
def gtBitObsCount (b : Nat) (obs : List HwErrObs) : Nat :=
  obs.countP (fun o => match o with
    | .gtCorrectable es _ => es.testBit b
    | _ => false)

/-- Bit/counter pairs whose counter is a plain increment on every
platform. -/
def gtCorBitCounterPairs : List (Nat × Nat) :=
  [(L3_SNG_COR_ERR, INTEL_GT_HW_ERROR_COR_L3_SNG),
   (GUC_COR_ERR, INTEL_GT_HW_ERROR_COR_GUC),
   (SAMPLER_COR_ERR, INTEL_GT_HW_ERROR_COR_SAMPLER),
   (EU_IC_COR_ERR, INTEL_GT_HW_ERROR_COR_EU_IC),
   (EU_GRF_COR_ERR, INTEL_GT_HW_ERROR_COR_EU_GRF)]

/-! ### GSC / memory-sparing error handling (claims C5, C7) -/

/-! Firmware memory-sparing cause codes written to
`GSC_HEC_CORR_FW_ERR_DW0` (modelled, distinct, nonzero). -/

def BANK_CORRECTABLE_ERROR : Nat := 1

def BANK_SPARNG_ERR_MITIGATION_DOWNGRADED : Nat := 2

def BANK_SPARNG_DIS_PCLS_EXCEEDED : Nat := 3

def BANK_SPARNG_ENA_PCLS_UNCORRECTABLE : Nat := 4

/-! HBM event numbers of the `SWF_0` scratch register (modelled). -/

def UC_DEMAND_ACCESS : Nat := 0

def PATROL_SCRUB_ERROR : Nat := 1

def PCLS_EXCEEDED : Nat := 2

def PCLS_SAME_CACHELINE : Nat := 3

/-! Memory-health states of `enum mem_health_status` (modelled). -/

def MEM_HEALTH_OKAY : Nat := 0

def MEM_HEALTH_ALARM : Nat := 1

def MEM_HEALTH_EC_PENDING : Nat := 2

def MEM_HEALTH_DEGRADED : Nat := 3

def MEM_HEALTH_UNKNOWN : Nat := 4

/-! GSC error status bits and counter indices (modelled, distinct).
`GSC_HW_ERROR_MAX_ERR_BITS` doubles as the loop bound and as the
"no counter" sentinel value of `err_type`, as in the source. -/

def GSC_HW_ERROR_MAX_ERR_BITS : Nat := 16

def GSC_COR_SRAM_ECC_SINGLE_BIT_ERR : Nat := 0

def GSC_COR_FW_REPORTED_ERR : Nat := 1

def GSC_UNCOR_MIA_SHUTDOWN_ERR : Nat := 0

def GSC_UNCOR_MIA_INT_ERR : Nat := 1

def GSC_UNCOR_SRAM_ECC_ERR : Nat := 2

def GSC_UNCOR_WDG_TIMEOUT_ERR : Nat := 3

def GSC_UNCOR_ROM_PARITY_ERR : Nat := 4

def GSC_UNCOR_UCODE_PARITY_ERR : Nat := 5

def GSC_UNCOR_FW_REPORTED_ERR : Nat := 6

def GSC_UNCOR_GLITCH_DET_ERR : Nat := 7

def GSC_UNCOR_FUSE_PULL_ERR : Nat := 8

def GSC_UNCOR_FUSE_CRC_CHECK_ERR : Nat := 9

def GSC_UNCOR_SELFMBIST_ERR : Nat := 10

def GSC_UNCOR_AON_PARITY_ERR : Nat := 11

def INTEL_GSC_HW_ERROR_COR_SRAM_ECC : Nat := 0

def INTEL_GSC_HW_ERROR_UNCOR_MIA_SHUTDOWN : Nat := 1

def INTEL_GSC_HW_ERROR_UNCOR_MIA_INT : Nat := 2

def INTEL_GSC_HW_ERROR_UNCOR_SRAM_ECC : Nat := 3

def INTEL_GSC_HW_ERROR_UNCOR_WDG_TIMEOUT : Nat := 4

def INTEL_GSC_HW_ERROR_UNCOR_ROM_PARITY : Nat := 5

def INTEL_GSC_HW_ERROR_UNCOR_UCODE_PARITY : Nat := 6

def INTEL_GSC_HW_ERROR_UNCOR_GLITCH_DET : Nat := 7

def INTEL_GSC_HW_ERROR_UNCOR_FUSE_PULL : Nat := 8

def INTEL_GSC_HW_ERROR_UNCOR_FUSE_CRC_CHECK : Nat := 9

def INTEL_GSC_HW_ERROR_UNCOR_SELFMBIST : Nat := 10

def INTEL_GSC_HW_ERROR_UNCOR_AON_PARITY : Nat := 11

/-- Platform facts queried by the error-dispatch hierarchy. -/
structure HwPlatform where
  /-- Result of `IS_PONTEVECCHIO(gt->i915)`. -/
  isPVC : Bool
  /-- Result of `HAS_GT_ERROR_VECTORS(gt->i915)`. -/
  hasGtErrorVectors : Bool
  /-- Result of `HAS_MEM_SPARING_SUPPORT(gt->i915)`. -/
  hasMemSparing : Bool
  /-- Value of `gt->info.id`. -/
  gtId : Nat
  /-- Abstraction of `soc_err_index_to_str`: whether the index maps to a
  defined name (its 400-case string table is reporting-only and out of
  scope). -/
  socIndexValid : Nat → Bool

/-- Register values read during one dispatch cycle; each register is
read at most once per invocation on the modelled paths. -/
structure ErrRegs where
  /-- `DEV_ERR_STAT_REG(hw_err)`. -/
  devErrStat : Nat
  /-- `ERR_STAT_GT_REG(hw_err)`. -/
  errStatGT : Nat
  /-- `SLM_ECC_ERROR_CNTR(hw_err)`. -/
  slmCnt : Nat
  /-- `ERR_STAT_GT_COR_VCTR_REG(i)`. -/
  corVctr : Nat → Nat
  /-- `ERR_STAT_GT_FATAL_VCTR_REG(i)`. -/
  fatVctr : Nat → Nat
  /-- `SOC_GLOBAL_ERR_STAT_MASTER_REG(base, hw_err)`. -/
  socMstGlb : Nat
  /-- `SOC_GLOBAL_ERR_STAT_SLAVE_REG(slave_base, hw_err)`. -/
  socSlvGlb : Nat
  /-- `SOC_LOCAL_ERR_STAT_SLAVE_REG(slave_base, hw_err)`. -/
  socLclSlv : Nat
  /-- `SOC_LOCAL_ERR_STAT_MASTER_REG(base, hw_err)`. -/
  socLclMst : Nat
  /-- `LOCAL_FIRST_IEH_HEADER_LOG_REG`. -/
  socIehHeader : Nat
  /-- `GSC_HEC_CORR_UNCORR_ERR_STATUS(base, hw_err)`. -/
  gscErrStatus : Nat
  /-- `GSC_HEC_CORR_FW_ERR_DW0(base)`. -/
  gscFwErrDw0 : Nat
  /-- `SWF_0`. -/
  swf0 : Nat
  /-- `SWF_1`. -/
  swf1 : Nat

/-- Driver-wide error state plus the countable side effects of a
dispatch cycle: counter arrays, the stored memory-sparing cause, counts
of driver-anomaly logs (`intel_gt_log_driver_error`), hardware-error
logs (`log_gt_hw_err` / `drm_err`), the distinct unrepairable-fault
`dev_crit` message, scheduled work items, and the number of per-bit
dispatches of the top-level `DEV_ERR_STAT` loop. -/
structure HwDispatchState where
  hw : Nat → Nat
  soc : Nat → Nat
  sgunit : Nat → Nat
  gscHw : Nat → Nat
  memSparingCause : Nat
  driverLogs : Nat
  hwLogs : Nat
  unrepairableMsgs : Nat
  memHealthScheduled : Nat
  gscWorkScheduled : Nat
  dispatchedBits : Nat

/-- Index of a severity class in the `gt->errors.sgunit[...]` array. -/
def hwErrIdx : HwErr → Nat
  | .correctable => 0
  | .nonfatal => 1
  | .fatal => 2

/-- Embedding of `log_hbm_err_info` (`i915_irq.c:1891`).  Field widths
of the `SWF_0`/`SWF_1` scratch registers follow the bitfield layout in
the source (`event_num:5`, then `column:10, bank:6, old_state:4,
new_state:4`).  Only the countable effects are tracked: the
`BANK_SPARNG_ENA_PCLS_UNCORRECTABLE` arm emits the distinct
unrepairable-fault `dev_crit` message; every other arm emits ordinary
error logging. -/
def log_hbm_err_info (cause swf0 swf1 : Nat) (st : HwDispatchState) :
    HwDispatchState :=
  let eventNum := swf0 % 2 ^ 5
  let oldState := swf1 / 2 ^ 16 % 2 ^ 4
  let newState := swf1 / 2 ^ 20 % 2 ^ 4
  let stateChange : Bool := oldState ≠ newState
  if cause = BANK_CORRECTABLE_ERROR then
    let st := { st with hwLogs := st.hwLogs + 1 }
    if stateChange then { st with hwLogs := st.hwLogs + 1 } else st
  else if cause = BANK_SPARNG_ERR_MITIGATION_DOWNGRADED then
    { st with hwLogs := st.hwLogs + 1 }
  else if cause = BANK_SPARNG_DIS_PCLS_EXCEEDED then
    if eventNum = UC_DEMAND_ACCESS then
      { st with hwLogs := st.hwLogs + 1 }
    else if eventNum = PATROL_SCRUB_ERROR then
      { st with hwLogs := st.hwLogs + 2 }
    else if eventNum = PCLS_EXCEEDED then
      let st := { st with hwLogs := st.hwLogs + 2 }
      if stateChange then { st with hwLogs := st.hwLogs + 1 } else st
    else if eventNum = PCLS_SAME_CACHELINE then
      { st with hwLogs := st.hwLogs + 2 }
    else
      { st with hwLogs := st.hwLogs + 1 }
  else if cause = BANK_SPARNG_ENA_PCLS_UNCORRECTABLE then
    -- dev_crit "[HBM ERROR]: Unrepairable fault has been detected,
    -- replace the PVC Card"
    { st with unrepairableMsgs := st.unrepairableMsgs + 1 }
  else
    { st with hwLogs := st.hwLogs + 1 }

/-- Per-bit scan of the correctable branch of
`gen12_gsc_hw_error_handler` (`i915_irq.c:2031-2082`), with the
`goto re_enable_interrupt` early exit taken when the accumulated cause
is still zero after the firmware register read. -/
def gsc_cor_bits (p : HwPlatform) (r : ErrRegs) :
    List Nat → HwDispatchState → HwDispatchState
  | [], st => st
  | b :: bs, st =>
    if ¬ r.gscErrStatus.testBit b then gsc_cor_bits p r bs st
    else if b = GSC_COR_SRAM_ECC_SINGLE_BIT_ERR then
      gsc_cor_bits p r bs
        { st with gscHw := bump st.gscHw INTEL_GSC_HW_ERROR_COR_SRAM_ECC,
                  hwLogs := st.hwLogs + 1 }
    else if b = GSC_COR_FW_REPORTED_ERR then
      -- gt->mem_sparing.cause |= GSC_HEC_CORR_FW_ERR_DW0; drm_err(...)
      let cause := st.memSparingCause ||| r.gscFwErrDw0
      let st := { st with memSparingCause := cause, hwLogs := st.hwLogs + 1 }
      if cause = 0 then st
      else
        let st := if p.isPVC then log_hbm_err_info cause r.swf0 r.swf1 st
                  else st
        gsc_cor_bits p r bs
          { st with memHealthScheduled := st.memHealthScheduled + 1 }
    else
      -- name = "Undefined": err_type keeps its sentinel, no counter
      gsc_cor_bits p r bs { st with hwLogs := st.hwLogs + 1 }

/-- Counter index assigned by the non-fatal branch of the GSC handler to
each status bit, with the `GSC_HW_ERROR_MAX_ERR_BITS` sentinel for bits
that carry no counter (the FW-reported bit and undefined bits). -/
def gsc_uncor_err_type (b : Nat) : Nat :=
  if b = GSC_UNCOR_MIA_SHUTDOWN_ERR then INTEL_GSC_HW_ERROR_UNCOR_MIA_SHUTDOWN
  else if b = GSC_UNCOR_MIA_INT_ERR then INTEL_GSC_HW_ERROR_UNCOR_MIA_INT
  else if b = GSC_UNCOR_SRAM_ECC_ERR then INTEL_GSC_HW_ERROR_UNCOR_SRAM_ECC
  else if b = GSC_UNCOR_WDG_TIMEOUT_ERR then
    INTEL_GSC_HW_ERROR_UNCOR_WDG_TIMEOUT
  else if b = GSC_UNCOR_ROM_PARITY_ERR then
    INTEL_GSC_HW_ERROR_UNCOR_ROM_PARITY
  else if b = GSC_UNCOR_UCODE_PARITY_ERR then
    INTEL_GSC_HW_ERROR_UNCOR_UCODE_PARITY
  else if b = GSC_UNCOR_FW_REPORTED_ERR then GSC_HW_ERROR_MAX_ERR_BITS
  else if b = GSC_UNCOR_GLITCH_DET_ERR then
    INTEL_GSC_HW_ERROR_UNCOR_GLITCH_DET
  else if b = GSC_UNCOR_FUSE_PULL_ERR then INTEL_GSC_HW_ERROR_UNCOR_FUSE_PULL
  else if b = GSC_UNCOR_FUSE_CRC_CHECK_ERR then
    INTEL_GSC_HW_ERROR_UNCOR_FUSE_CRC_CHECK
  else if b = GSC_UNCOR_SELFMBIST_ERR then INTEL_GSC_HW_ERROR_UNCOR_SELFMBIST
  else if b = GSC_UNCOR_AON_PARITY_ERR then
    INTEL_GSC_HW_ERROR_UNCOR_AON_PARITY
  else GSC_HW_ERROR_MAX_ERR_BITS

/-- Per-bit body of the non-fatal branch of the GSC handler
(`i915_irq.c:2085-2153`): count when a counter exists, schedule the GSC
health work, and emit the two log lines. -/
def gsc_uncor_step (st : HwDispatchState) (b : Nat) : HwDispatchState :=
  let et := gsc_uncor_err_type b
  let st := if et ≠ GSC_HW_ERROR_MAX_ERR_BITS then
              { st with gscHw := bump st.gscHw et }
            else st
  { st with gscWorkScheduled := st.gscWorkScheduled + 1,
            hwLogs := st.hwLogs + 2 }

/-- Embedding of `gen12_gsc_hw_error_handler` (`i915_irq.c:2011`).  The
final write-1-to-clear of the status register is a register side effect
that the state does not track. -/
def gen12_gsc_hw_error_handler (p : HwPlatform) (r : ErrRegs)
    (hwErr : HwErr) (st : HwDispatchState) : HwDispatchState :=
  if ¬ p.hasMemSparing then st
  else if r.gscErrStatus = 0 then st
  else
    match hwErr with
    | .correctable =>
      gsc_cor_bits p r (List.range GSC_HW_ERROR_MAX_ERR_BITS) st
    | .nonfatal =>
      for_each_set_bit r.gscErrStatus GSC_HW_ERROR_MAX_ERR_BITS
        gsc_uncor_step st
    | .fatal =>
      -- GSC error not handled for Fatal Error status; falls through
      -- to the empty default case
      { st with hwLogs := st.hwLogs + 1 }

/-- Uevent payloads built by `gen12_mem_health_work`, identified by the
environment string of the cause arm. -/
inductive UeventKind where
  | memHealthAlarm
  | resetEcPending
  | degradedEcFailed
  | sparingUnknown
deriving DecidableEq

/-- Result of one `gen12_mem_health_work` invocation: the stored cause
(always fetched-and-zeroed), the health status, the uevent sent (if
any), and whether the kernel was tainted. -/
structure MemHealthOut where
  cause : Nat
  healthStatus : Nat
  uevent : Option UeventKind
  tainted : Bool
deriving DecidableEq

/-- Embedding of `gen12_mem_health_work` (`i915_irq.c:1839`).  The
stored cause is atomically fetched-and-zeroed under the interrupt lock;
a zero cause returns before building any uevent, and the
`BANK_CORRECTABLE_ERROR` arm returns without sending one. -/
def gen12_mem_health_work (cause healthStatus : Nat) : MemHealthOut :=
  if cause = 0 then
    { cause := 0, healthStatus := healthStatus, uevent := none,
      tainted := false }
  else if cause = BANK_SPARNG_ERR_MITIGATION_DOWNGRADED then
    { cause := 0, healthStatus := MEM_HEALTH_ALARM,
      uevent := some .memHealthAlarm, tainted := false }
  else if cause = BANK_SPARNG_DIS_PCLS_EXCEEDED then
    { cause := 0, healthStatus := MEM_HEALTH_EC_PENDING,
      uevent := some .resetEcPending, tainted := false }
  else if cause = BANK_SPARNG_ENA_PCLS_UNCORRECTABLE then
    -- add_taint(TAINT_MACHINE_CHECK, LOCKDEP_STILL_OK)
    { cause := 0, healthStatus := MEM_HEALTH_DEGRADED,
      uevent := some .degradedEcFailed, tainted := true }
  else if cause = BANK_CORRECTABLE_ERROR then
    { cause := 0, healthStatus := healthStatus, uevent := none,
      tainted := false }
  else
    { cause := 0, healthStatus := MEM_HEALTH_UNKNOWN,
      uevent := some .sparingUnknown, tainted := false }

/-- Concrete injection scenario for claim C7: PVC platform with memory
sparing, root tile. -/
def gscInjectPlatform : HwPlatform :=
  { isPVC := true, hasGtErrorVectors := true, hasMemSparing := true,
    gtId := 0, socIndexValid := fun _ => true }

/-- Concrete injection registers for claim C7: the correctable GSC
status reports only the firmware bit, and the firmware cause register
reads the uncorrectable sparing-exhausted code. -/
def gscInjectRegs : ErrRegs :=
  { devErrStat := 0, errStatGT := 0, slmCnt := 0, corVctr := fun _ => 0,
    fatVctr := fun _ => 0, socMstGlb := 0, socSlvGlb := 0, socLclSlv := 0,
    socLclMst := 0, socIehHeader := 0,
    gscErrStatus := 2 ^ GSC_COR_FW_REPORTED_ERR,
    gscFwErrDw0 := BANK_SPARNG_ENA_PCLS_UNCORRECTABLE, swf0 := 0, swf1 := 0 }

/-- Fresh driver error state for the C7 injection scenario. -/
def gscInjectState : HwDispatchState :=
  { hw := fun _ => 0, soc := fun _ => 0, sgunit := fun _ => 0,
    gscHw := fun _ => 0, memSparingCause := 0, driverLogs := 0, hwLogs := 0,
    unrepairableMsgs := 0, memHealthScheduled := 0, gscWorkScheduled := 0,
    dispatchedBits := 0 }

/-! ### GT error handler, SOC handler and top-level source dispatch
(claim C5) -/

/-! Vector-register loop bounds and indices (modelled). -/

def ERR_STAT_GT_COR_VCTR_LEN : Nat := 4

def ERR_STAT_GT_FATAL_VCTR_LEN : Nat := 8

def ERR_STAT_GT_VCTR0 : Nat := 0

def ERR_STAT_GT_VCTR1 : Nat := 1

def ERR_STAT_GT_VCTR2 : Nat := 2

def ERR_STAT_GT_VCTR3 : Nat := 3

def ERR_STAT_GT_VCTR6 : Nat := 6

def ERR_STAT_GT_VCTR7 : Nat := 7

/-- Embedding of the kernel `hweight` family: number of set bits among
the low `bits` bits. -/
def hweight (bits n : Nat) : Nat :=
  (List.range bits).countP (fun b => n.testBit b)

/-- One iteration of the correctable vector-register loop of
`gen12_gt_hw_error_handler` (`i915_irq.c:2263-2305`).  The accumulator
carries the state, the error-status value read so far (the register is
read at most once across the loop) and the `error` flag. -/
def gt_cor_vctr_step (p : HwPlatform) (r : ErrRegs)
    (acc : HwDispatchState × Nat × Bool) (i : Nat) :
    HwDispatchState × Nat × Bool :=
  let st := acc.1
  let errstat := acc.2.1
  let error := acc.2.2
  let vctr := r.corVctr i
  if vctr = 0 then (st, errstat, error)
  else if i = ERR_STAT_GT_VCTR0 ∨ i = ERR_STAT_GT_VCTR1 then
    let st := { st with
      hw := addAt st.hw INTEL_GT_HW_ERROR_COR_SUBSLICE (hweight 32 vctr),
      hwLogs := st.hwLogs + 1 }
    if errstat ≠ 0 then (st, errstat, true)
    else
      let errstat2 := r.errStatGT
      let out := gen12_gt_correctable_hw_error_stats_update p.isPVC
        p.hasGtErrorVectors r.slmCnt st.hw errstat2
      (({ st with hw := out.hw,
                  driverLogs := st.driverLogs + out.driverLogs,
                  hwLogs := st.hwLogs + 1 + out.hwLogs }), errstat2, true)
  else if i = ERR_STAT_GT_VCTR2 ∨ i = ERR_STAT_GT_VCTR3 then
    ({ st with
       hw := addAt st.hw INTEL_GT_HW_ERROR_COR_L3BANK (hweight 32 vctr),
       hwLogs := st.hwLogs + 1 }, errstat, true)
  else
    ({ st with driverLogs := st.driverLogs + 1 }, errstat, true)

/-- One iteration of the fatal vector-register loop
(`i915_irq.c:2331-2392`). -/
def gt_fat_vctr_step (p : HwPlatform) (r : ErrRegs)
    (acc : HwDispatchState × Nat × Bool) (i : Nat) :
    HwDispatchState × Nat × Bool :=
  let st := acc.1
  let errstat := acc.2.1
  let error := acc.2.2
  let vctr := r.fatVctr i
  if vctr = 0 then (st, errstat, error)
  else if i = ERR_STAT_GT_VCTR0 ∨ i = ERR_STAT_GT_VCTR1 then
    let st := { st with
      hw := addAt st.hw INTEL_GT_HW_ERROR_FAT_SUBSLICE (hweight 32 vctr),
      hwLogs := st.hwLogs + 1 }
    if errstat ≠ 0 then (st, errstat, true)
    else
      let errstat2 := r.errStatGT
      let out := gen12_gt_fatal_hw_error_stats_update p.isPVC
        p.hasGtErrorVectors r.slmCnt st.hw errstat2
      (({ st with hw := out.hw,
                  driverLogs := st.driverLogs + out.driverLogs,
                  hwLogs := st.hwLogs + 1 + out.hwLogs }), errstat2, true)
  else if i = ERR_STAT_GT_VCTR2 ∨ i = ERR_STAT_GT_VCTR3 then
    -- name = "L3 BANK": counted here, logged after the switch
    ({ st with
       hw := addAt st.hw INTEL_GT_HW_ERROR_FAT_L3BANK (hweight 32 vctr),
       hwLogs := st.hwLogs + 1 }, errstat, true)
  else if i = ERR_STAT_GT_VCTR6 then
    ({ st with
       hw := addAt st.hw INTEL_GT_HW_ERROR_FAT_TLB (hweight 16 vctr),
       hwLogs := st.hwLogs + 1 }, errstat, true)
  else if i = ERR_STAT_GT_VCTR7 then
    -- logged inline, then gt_l3fabric_error_handler logs one line per
    -- set nodepair bit
    ({ st with
       hw := addAt st.hw INTEL_GT_HW_ERROR_FAT_L3_FABRIC (hweight 8 vctr),
       hwLogs := st.hwLogs + 1 + hweight 8 vctr }, errstat, true)
  else
    -- name = "Undefined"
    ({ st with driverLogs := st.driverLogs + 1 }, errstat, true)

/-- Embedding of `gen12_gt_hw_error_handler` (`i915_irq.c:2236`).  On
platforms without error vectors the handler first reads
`ERR_STAT_GT_REG`; a blank read logs the driver-internal anomaly and
returns before dispatching anything.  Final write-1-to-clear register
writes are not tracked. -/
def gen12_gt_hw_error_handler (p : HwPlatform) (r : ErrRegs) (hwErr : HwErr)
    (st : HwDispatchState) : HwDispatchState :=
  if ¬ p.hasGtErrorVectors ∧ r.errStatGT = 0 then
    -- "ERR_STAT_GT_REG_%s blank!"
    { st with driverLogs := st.driverLogs + 1 }
  else
    match hwErr with
    | .correctable =>
      let st := { st with hwLogs := st.hwLogs + 1 }  -- "GT CORRECTABLE error"
      if p.hasGtErrorVectors then
        let acc := (List.range ERR_STAT_GT_COR_VCTR_LEN).foldl
          (gt_cor_vctr_step p r) (st, 0, false)
        if acc.2.2 then acc.1
        else { acc.1 with driverLogs := acc.1.driverLogs + 1 }
      else
        let out := gen12_gt_correctable_hw_error_stats_update p.isPVC
          p.hasGtErrorVectors r.slmCnt st.hw r.errStatGT
        { st with hw := out.hw,
                  driverLogs := st.driverLogs + out.driverLogs,
                  hwLogs := st.hwLogs + out.hwLogs + 1 }
    | .nonfatal =>
      -- only reserved bitfields defined: "Undefined GT NonFatal error"
      { st with driverLogs := st.driverLogs + 1 }
    | .fatal =>
      let st := { st with hwLogs := st.hwLogs + 1 }  -- "GT FATAL error"
      if p.hasGtErrorVectors then
        let acc := (List.range ERR_STAT_GT_FATAL_VCTR_LEN).foldl
          (gt_fat_vctr_step p r) (st, 0, false)
        if acc.2.2 then acc.1
        else { acc.1 with driverLogs := acc.1.driverLogs + 1 }
      else
        let out := gen12_gt_fatal_hw_error_stats_update p.isPVC
          p.hasGtErrorVectors r.slmCnt st.hw r.errStatGT
        { st with hw := out.hw,
                  driverLogs := st.driverLogs + out.driverLogs,
                  hwLogs := st.hwLogs + out.hwLogs + 1 }

/-! ### SOC error handler (modelled bit positions and index encoding) -/

def SOC_HW_ERR_MAX_BITS : Nat := 32

def SOC_SLAVE_IEH : Nat := 1

def SOC_IEH0_LOCAL_ERR_STATUS : Nat := 0

def SOC_IEH1_LOCAL_ERR_STATUS : Nat := 0

def PVC_SOC_MDFI_EAST : Nat := 4

def PVC_SOC_MDFI_SOUTH : Nat := 5

def INTEL_GT_SOC_IEH0 : Nat := 0

def INTEL_GT_SOC_IEH1 : Nat := 1

def INTEL_SOC_REG_GLOBAL : Nat := 0

def INTEL_SOC_REG_LOCAL : Nat := 1

/-- Modelled injective encoding of the `SOC_ERR_INDEX` macro combining
IEH number, register kind, severity class and bit into one xarray
index. -/
def SOC_ERR_INDEX (ieh reg : Nat) (hwErr : HwErr) (bit : Nat) : Nat :=
  bit + 64 * hwErrIdx hwErr + 256 * reg + 512 * ieh

/-- Modelled `MDFI_SEVERITY` header value per severity class (distinct
per class, distinct from register bit numbers). -/
def MDFI_SEVERITY (hwErr : HwErr) : Nat := 16 + hwErrIdx hwErr

/-- Embedding of `log_soc_hw_error` (`i915_irq.c:1516`): on PVC, a
defined name logs as a hardware error, an "Undefined"/"Invalid" name as
a driver-internal anomaly. -/
def log_soc_hw_error (p : HwPlatform) (index : Nat)
    (st : HwDispatchState) : HwDispatchState :=
  if ¬ p.isPVC then st
  else if p.socIndexValid index then { st with hwLogs := st.hwLogs + 1 }
  else { st with driverLogs := st.driverLogs + 1 }

/-- Embedding of `gen12_soc_hw_error_handler` (`i915_irq.c:1551`).  All
mask/unmask and write-1-to-clear register writes are untracked register
side effects; everything the driver state observes (xarray counters,
logs) is modelled. -/
def gen12_soc_hw_error_handler (p : HwPlatform) (r : ErrRegs)
    (hwErr : HwErr) (st : HwDispatchState) : HwDispatchState :=
  if ¬ p.isPVC then st
  else
    let st := { st with hwLogs := st.hwLogs + 1 }  -- "SOC %s error"
    if hwErr = .correctable ∨ (hwErr = .nonfatal ∧ ¬ p.isPVC) then
      -- clear all four status registers, log "Invalid SOC", unmask
      { st with driverLogs := st.driverLogs + 1 }
    else
      let mst := r.socMstGlb
      let st := { st with hwLogs := st.hwLogs + 1 }
      let st :=
        if mst.testBit SOC_SLAVE_IEH then
          let slv := r.socSlvGlb
          let st := { st with hwLogs := st.hwLogs + 1 }
          let st :=
            if slv.testBit SOC_IEH1_LOCAL_ERR_STATUS then
              let lcl := r.socLclSlv
              let st := { st with hwLogs := st.hwLogs + 1 }
              for_each_set_bit lcl SOC_HW_ERR_MAX_BITS
                (fun st2 bit =>
                  let index := SOC_ERR_INDEX INTEL_GT_SOC_IEH1
                    INTEL_SOC_REG_LOCAL hwErr bit
                  let st2 := { st2 with
                    soc := update_soc_hw_error_cnt st2.soc index }
                  if p.isPVC then
                    { st2 with driverLogs := st2.driverLogs + 1 }
                  else st2) st
            else st
          for_each_set_bit slv SOC_HW_ERR_MAX_BITS
            (fun st2 bit =>
              if bit = SOC_IEH1_LOCAL_ERR_STATUS then st2
              else
                let index := SOC_ERR_INDEX INTEL_GT_SOC_IEH1
                  INTEL_SOC_REG_GLOBAL hwErr bit
                log_soc_hw_error p index
                  { st2 with soc := update_soc_hw_error_cnt st2.soc index })
            st
        else st
      let st :=
        if mst.testBit SOC_IEH0_LOCAL_ERR_STATUS then
          let lcl := r.socLclMst
          let st := { st with hwLogs := st.hwLogs + 1 }
          for_each_set_bit lcl SOC_HW_ERR_MAX_BITS
            (fun st2 bit =>
              if bit = PVC_SOC_MDFI_EAST ∨ bit = PVC_SOC_MDFI_SOUTH then
                let st2 := { st2 with hwLogs := st2.hwLogs + 1 }
                if r.socIehHeader ≠ MDFI_SEVERITY hwErr then
                  -- header mismatch: clear the bit and continue
                  st2
                else
                  let index := SOC_ERR_INDEX INTEL_GT_SOC_IEH0
                    INTEL_SOC_REG_LOCAL hwErr bit
                  log_soc_hw_error p index
                    { st2 with soc := update_soc_hw_error_cnt st2.soc index }
              else
                let index := SOC_ERR_INDEX INTEL_GT_SOC_IEH0
                  INTEL_SOC_REG_LOCAL hwErr bit
                log_soc_hw_error p index
                  { st2 with soc := update_soc_hw_error_cnt st2.soc index })
            st
        else st
      for_each_set_bit mst SOC_HW_ERR_MAX_BITS
        (fun st2 bit =>
          if bit = SOC_SLAVE_IEH ∨ bit = SOC_IEH0_LOCAL_ERR_STATUS then st2
          else
            let index := SOC_ERR_INDEX INTEL_GT_SOC_IEH0
              INTEL_SOC_REG_GLOBAL hwErr bit
            log_soc_hw_error p index
              { st2 with soc := update_soc_hw_error_cnt st2.soc index })
        st

/-! ### Top-level per-class dispatch (`gen12_hw_error_source_handler`) -/

def DEV_ERR_STAT_MAX_BITS : Nat := 16

def DEV_ERR_STAT_GT_ERROR : Nat := 0

def DEV_ERR_STAT_SGGI_ERROR : Nat := 1

def DEV_ERR_STAT_GSC_ERROR : Nat := 2

def DEV_ERR_STAT_SGUNIT_ERROR : Nat := 3

def DEV_ERR_STAT_SGCI_ERROR : Nat := 4

def DEV_ERR_STAT_SOC_ERROR : Nat := 5

def DEV_ERR_STAT_MERT_ERROR : Nat := 6

/-- Embedding of `log_errors` (`i915_irq.c:2409`). -/
def log_errors (p : HwPlatform) (isValid : Bool)
    (st : HwDispatchState) : HwDispatchState :=
  if ¬ p.isPVC then st
  else if isValid then { st with hwLogs := st.hwLogs + 1 }
  else { st with driverLogs := st.driverLogs + 1 }

/-- Whether a severity class makes the SGGI/SGCI/MERT parity cases
valid (`is_valid = true` for fatal and non-fatal, "Undefined"
otherwise). -/
def parity_valid (hwErr : HwErr) : Bool :=
  match hwErr with
  | .fatal => true
  | .nonfatal => true
  | .correctable => false

/-- Per-bit dispatch of the `DEV_ERR_STAT` loop
(`i915_irq.c:2446-2527`); each processed bit counts as one dispatch. -/
def dev_err_bit_dispatch (p : HwPlatform) (r : ErrRegs) (hwErr : HwErr)
    (st : HwDispatchState) (bit : Nat) : HwDispatchState :=
  let st := { st with dispatchedBits := st.dispatchedBits + 1 }
  if bit = DEV_ERR_STAT_GT_ERROR then
    gen12_gt_hw_error_handler p r hwErr st
  else if bit = DEV_ERR_STAT_SGGI_ERROR then
    log_errors p (parity_valid hwErr) st
  else if bit = DEV_ERR_STAT_GSC_ERROR then
    if p.gtId = 0 then gen12_gsc_hw_error_handler p r hwErr st
    else log_errors p false st
  else if bit = DEV_ERR_STAT_SGUNIT_ERROR then
    let st := log_errors p false st
    { st with sgunit := bump st.sgunit (hwErrIdx hwErr) }
  else if bit = DEV_ERR_STAT_SGCI_ERROR then
    log_errors p (parity_valid hwErr) st
  else if bit = DEV_ERR_STAT_SOC_ERROR then
    gen12_soc_hw_error_handler p r hwErr st
  else if bit = DEV_ERR_STAT_MERT_ERROR then
    log_errors p (parity_valid hwErr) st
  else
    log_errors p false st

/-- Embedding of `gen12_hw_error_source_handler` (`i915_irq.c:2425`):
read the per-class `DEV_ERR_STAT` register under the interrupt lock; a
blank read logs the driver-internal anomaly and returns without
dispatching any bit and without touching any counter; otherwise every
set bit below `DEV_ERR_STAT_MAX_BITS` is dispatched and the register is
written back to clear (untracked register side effect). -/
def gen12_hw_error_source_handler (p : HwPlatform) (r : ErrRegs)
    (hwErr : HwErr) (st : HwDispatchState) : HwDispatchState :=
  let errsrc := r.devErrStat
  if errsrc = 0 then
    -- "DEV_ERR_STAT_REG_%s blank!"
    { st with driverLogs := st.driverLogs + 1 }
  else
    let st := if p.isPVC then { st with hwLogs := st.hwLogs + 1 } else st
    for_each_set_bit errsrc DEV_ERR_STAT_MAX_BITS
      (dev_err_bit_dispatch p r hwErr) st

/-! ## Execution-context pinning (`gt/intel_context.c`)

Claims C1 and C2.  The pin path serialises on `ce->pin_mutex` and on
the wound-wait object locks, so one pin or unpin call is modelled as an
atomic transition on the context state; each call additionally emits a
trace of the resource-management events it performs, named after the
calls in the source.  External collaborator calls (`ce->ops->alloc`,
object locking, `intel_context_pre_pin`, `ce->ops->pre_pin`,
`i915_active_acquire`, the mutex, `intel_context_active_acquire`,
`ce->ops->pin`) can fail; their results are inputs (`PinEnv`). -/

/-- Context state bits consulted by the pin/unpin paths. -/
structure IntelContext where
  /-- Value of `atomic_read(&ce->pin_count)`. -/
  pinCount : Nat
  /-- `CONTEXT_ALLOC_BIT` of `ce->flags`. -/
  allocBit : Bool
  /-- Result of `intel_context_is_banned(ce)`. -/
  banned : Bool
  /-- Result of `intel_context_is_closed(ce)`. -/
  closed : Bool
deriving DecidableEq

/-- Resource-management events emitted by one pin or unpin call, named
after the source calls. -/
inductive CtxEvent where
  /-- `ce->ops->alloc` succeeded and `CONTEXT_ALLOC_BIT` was set. -/
  | opsAlloc
  /-- `intel_context_pre_pin`: ring, timeline and state temporarily
  pinned. -/
  | tempAcquire
  /-- `ce->ops->pre_pin`. -/
  | opsPrePin
  /-- `i915_active_acquire(&ce->active)` before taking the mutex. -/
  | activeTmpAcquire
  /-- `intel_context_active_acquire`: the long-lived active reference of
  a pin epoch. -/
  | epochActiveAcquire
  /-- `ce->ops->pin`: the epoch hardware-resource pin. -/
  | opsPin
  /-- `atomic_inc(&ce->pin_count)` after `smp_mb__before_atomic`: the
  first pin becomes visible. -/
  | pinVisible
  /-- `atomic_add_unless(&ce->pin_count, 1, 0)` succeeded: a later pin
  only increments. -/
  | pinInc
  /-- `i915_active_release(&ce->active)` of the temporary reference. -/
  | activeTmpRelease
  /-- `ce->ops->post_unpin`. -/
  | opsPostUnpin
  /-- `intel_context_post_unpin`: ring, timeline and state temporary
  pins dropped. -/
  | tempRelease
  /-- `ce->ops->unpin`: the epoch hardware-resource release. -/
  | opsUnpin
  /-- `intel_context_get`: the temporary extra ownership reference. -/
  | ctxGet
  /-- `intel_context_active_release`: drop of the active tracking
  node. -/
  | ctxActiveRelease
  /-- `intel_context_put`. -/
  | ctxPut
deriving DecidableEq

/-- Results of the external collaborator calls made by one pin call
(`0` / `false` means success). -/
structure PinEnv where
  /-- `mutex_lock_interruptible` inside `intel_context_alloc_state`
  interrupted. -/
  allocMutexErr : Bool
  /-- Result of `ce->ops->alloc`. -/
  opsAllocErr : Int
  /-- Result of the `i915_gem_object_lock` phase. -/
  lockErr : Int
  /-- Result of `intel_context_pre_pin`. -/
  prePinErr : Int
  /-- Result of `ce->ops->pre_pin`. -/
  opsPrePinErr : Int
  /-- Result of `i915_active_acquire(&ce->active)`. -/
  activeErr : Int
  /-- `mutex_lock_interruptible(&ce->pin_mutex)` interrupted. -/
  mutexErr : Bool
  /-- Result of `intel_context_active_acquire`. -/
  activeAcquireErr : Int
  /-- Result of `ce->ops->pin`. -/
  opsPinErr : Int
deriving DecidableEq

/-- Environment in which every external collaborator call succeeds. -/
def PinEnv.ok : PinEnv :=
  { allocMutexErr := false, opsAllocErr := 0, lockErr := 0, prePinErr := 0,
    opsPrePinErr := 0, activeErr := 0, mutexErr := false,
    activeAcquireErr := 0, opsPinErr := 0 }

/-- Embedding of `intel_context_alloc_state` (`intel_context.c:53`):
under the pin mutex, a banned context is refused with `-EIO` before the
one-time state allocation; on success `CONTEXT_ALLOC_BIT` is set and
stays set. -/
def intel_context_alloc_state (ce : IntelContext) (env : PinEnv) :
    IntelContext × Int × List CtxEvent :=
  if env.allocMutexErr then (ce, -ERESTARTSYS, [])
  else if ¬ ce.allocBit then
    if ce.banned then (ce, -EIO_errno, [])
    else if env.opsAllocErr ≠ 0 then (ce, env.opsAllocErr, [])
    else ({ ce with allocBit := true }, 0, [.opsAlloc])
  else (ce, 0, [])

/-- Continuation of `__intel_context_do_pin_ww` after the one-time
state allocation: the lock phase onwards (`intel_context.c:221-292`),
with the error-unwind labels rendered as the event suffixes they emit.
On the fast path (`atomic_add_unless` succeeded) `handoff` stays false,
so `ce->ops->post_unpin` runs; on the first pin `handoff` is true and
only the temporary pins are dropped. -/
def __intel_context_do_pin_ww_locked (ce : IntelContext) (env : PinEnv)
    (ev : List CtxEvent) : IntelContext × Int × List CtxEvent :=
  if env.lockErr ≠ 0 then (ce, env.lockErr, ev)
  else if env.prePinErr ≠ 0 then (ce, env.prePinErr, ev)
  else
    let ev := ev ++ [.tempAcquire]
    if env.opsPrePinErr ≠ 0 then
      -- goto err_ctx_unpin
      (ce, env.opsPrePinErr, ev ++ [.tempRelease])
    else
      let ev := ev ++ [.opsPrePin]
      if env.activeErr ≠ 0 then
        -- goto err_post_unpin (handoff = false)
        (ce, env.activeErr, ev ++ [.opsPostUnpin, .tempRelease])
      else
        let ev := ev ++ [.activeTmpAcquire]
        if env.mutexErr then
          -- goto err_release
          (ce, -EINTR, ev ++ [.activeTmpRelease, .opsPostUnpin,
            .tempRelease])
        else if ce.closed then
          -- err = -ENOENT; goto err_unlock
          (ce, -ENOENT, ev ++ [.activeTmpRelease, .opsPostUnpin,
            .tempRelease])
        else if ce.pinCount ≠ 0 then
          -- atomic_add_unless succeeded: only increment
          ({ ce with pinCount := ce.pinCount + 1 }, 0,
            ev ++ [.pinInc, .activeTmpRelease, .opsPostUnpin,
              .tempRelease])
        else if env.activeAcquireErr ≠ 0 then
          (ce, env.activeAcquireErr, ev ++ [.activeTmpRelease,
            .opsPostUnpin, .tempRelease])
        else
          let ev := ev ++ [.epochActiveAcquire]
          if env.opsPinErr ≠ 0 then
            (ce, env.opsPinErr, ev ++ [.ctxActiveRelease,
              .activeTmpRelease, .opsPostUnpin, .tempRelease])
          else
            -- handoff = true; smp_mb; atomic_inc
            ({ ce with pinCount := 1 }, 0,
              ev ++ [.opsPin, .pinVisible, .activeTmpRelease,
                .tempRelease])

/-- Embedding of `__intel_context_do_pin_ww` (`intel_context.c:202`):
the one-time state allocation when `CONTEXT_ALLOC_BIT` is clear,
followed by the lock phase. -/
def __intel_context_do_pin_ww (ce : IntelContext) (env : PinEnv) :
    IntelContext × Int × List CtxEvent :=
  if ¬ ce.allocBit then
    match intel_context_alloc_state ce env with
    | (ce1, err, ev) =>
      if err ≠ 0 then (ce1, err, ev)
      else __intel_context_do_pin_ww_locked ce1 env ev
  else __intel_context_do_pin_ww_locked ce env []

/-- Embedding of `__intel_context_do_unpin` (`intel_context.c:312`).
`GEM_BUG_ON(atomic_read(&ce->pin_count) < sub)` is a precondition
(theorems carry `sub ≤ ce.pinCount`); only the caller whose subtraction
reaches zero runs the release sequence, taking the temporary extra
ownership reference (`intel_context_get`) before dropping the active
tracking node (`intel_context_active_release`) and releasing it after
(`intel_context_put`). -/
def __intel_context_do_unpin (ce : IntelContext) (sub : Nat) :
    IntelContext × List CtxEvent :=
  if ce.pinCount - sub ≠ 0 then ({ ce with pinCount := ce.pinCount - sub }, [])
  else
    ({ ce with pinCount := 0 },
     [.opsUnpin, .opsPostUnpin, .ctxGet, .ctxActiveRelease, .ctxPut])

/-- One client operation on a context: a pin call or an `unpin(sub)`
call. -/
inductive PinOp where
  | pin
  | unpin (sub : Nat)
deriving DecidableEq

/-- Number of occurrences of one event in a trace. -/
def countEv (e : CtxEvent) (l : List CtxEvent) : Nat := l.count e

/-- State reached and trace emitted by a sequence of pin/unpin calls on
one context (the calls serialise on the context's locks, so the
interleaving across threads is a sequence of these transitions). -/
def ctx_run (env : PinEnv) : IntelContext → List PinOp →
    IntelContext × List CtxEvent
  | ce, [] => (ce, [])
  | ce, .pin :: rest =>
    let r := __intel_context_do_pin_ww ce env
    let rr := ctx_run env r.1 rest
    (rr.1, r.2.2 ++ rr.2)
  | ce, .unpin s :: rest =>
    let r := __intel_context_do_unpin ce s
    let rr := ctx_run env r.1 rest
    (rr.1, r.2 ++ rr.2)

/-- Well-formed call sequences: every unpin call hands back at least one
pin and no more than the current pin count (the source asserts
`GEM_BUG_ON(atomic_read(&ce->pin_count) < sub)`, and unpinning with
`sub = 0` never occurs). -/
def pin_seq_wf (env : PinEnv) : IntelContext → List PinOp → Bool
  | _, [] => true
  | ce, .pin :: rest => pin_seq_wf env (__intel_context_do_pin_ww ce env).1 rest
  | ce, .unpin s :: rest =>
    decide (1 ≤ s ∧ s ≤ ce.pinCount) &&
      pin_seq_wf env (__intel_context_do_unpin ce s).1 rest

/-- State of a wound-wait transaction (`struct i915_gem_ww_ctx`,
`i915_gem_ww.h`): the list of objects currently locked by the
transaction (`obj_list`, objects as abstract identifiers), the object
recorded as contended when a lock attempt aborted with `-EDEADLK`, the
flag saying the contended lock was taken for eviction, and the
interruptible flag. -/
structure WwCtx where
  objList : List Nat
  contended : Option Nat
  contendedEvict : Bool
  intr : Bool
deriving DecidableEq

/-- Embedding of `i915_gem_ww_ctx_init` (`i915_gem_ww.c:13`). -/
def i915_gem_ww_ctx_init (intr : Bool) : WwCtx :=
  { objList := [], contended := none, contendedEvict := false, intr := intr }

/-- Embedding of `i915_gem_ww_ctx_unlock_all` (`i915_gem_ww.c:23`): every
object of the transaction is unlocked and dropped. -/
def i915_gem_ww_ctx_unlock_all (ww : WwCtx) : WwCtx :=
  { ww with objList := [] }

/-- Embedding of `i915_gem_ww_ctx_fini` (`i915_gem_ww.c:44`). -/
def i915_gem_ww_ctx_fini (ww : WwCtx) : WwCtx :=
  i915_gem_ww_ctx_unlock_all ww

/-- Embedding of `i915_gem_ww_ctx_backoff` (`i915_gem_ww.c:51`). With no
contended object recorded it warns and returns `-EINVAL`; otherwise it
unlocks the whole batch, slow-locks the contended object
(`dma_resv_lock_slow_interruptible` when interruptible, whose result is
the oracle `slowErr`; the non-interruptible `dma_resv_lock_slow` cannot
fail), and on success keeps the contended object locked for the retry
unless it had been locked for eviction. -/
def i915_gem_ww_ctx_backoff (ww : WwCtx) (slowErr : Int) : WwCtx × Int :=
  match ww.contended with
  | none => (ww, -EINVAL)
  | some obj =>
    let ww1 := i915_gem_ww_ctx_unlock_all ww
    let ret : Int := if ww1.intr then slowErr else 0
    if ret ≠ 0 then ({ ww1 with contended := none }, ret)
    else if ww1.contendedEvict then ({ ww1 with contended := none }, 0)
    else
      ({ ww1 with
          objList := ww1.objList ++ [obj],
          contended := none }, 0)

/-- Outcome of one `__intel_context_do_pin_ww` transaction attempt, as
seen by the retry loop of `__intel_context_do_pin`: the returned error,
the objects the attempt left locked in the transaction, the contended
object and eviction flag it recorded when the error is `-EDEADLK`
(`__i915_gem_object_lock_to_evict`, `i915_gem_ww.c:97-100`, and the
lock helpers behind `i915_gem_object_lock`), and the result the
subsequent slow lock would give. -/
structure WwAttempt where
  err : Int
  locked : List Nat
  contended : Option Nat
  contendedEvict : Bool
  slowErr : Int
deriving DecidableEq

/-- Effect of one transaction attempt on the transaction state: the
locked objects are appended, and on an `-EDEADLK` abort the contended
object and its eviction flag are recorded. -/
def ww_record (ww : WwCtx) (a : WwAttempt) : WwCtx :=
  if a.err = -EDEADLK then
    { ww with
        objList := ww.objList ++ a.locked,
        contended := a.contended,
        contendedEvict := a.contendedEvict }
  else { ww with objList := ww.objList ++ a.locked }

/-- The `retry:` loop of `__intel_context_do_pin`
(`intel_context.c:295-310`), driven by the oracle list of transaction
outcomes: an `-EDEADLK` attempt is followed by a backoff, and the pin is
retried from scratch when the backoff succeeds; every other outcome ends
the loop. `none` means the oracle list ended before the loop did. -/
def do_pin_retry : WwCtx → List WwAttempt → Option (WwCtx × Int)
  | _, [] => none
  | ww, a :: rest =>
    let ww1 := ww_record ww a
    if a.err = -EDEADLK then
      let r := i915_gem_ww_ctx_backoff ww1 a.slowErr
      if r.2 = 0 then do_pin_retry r.1 rest
      else some (r.1, r.2)
    else some (ww1, a.err)

/-- Embedding of `__intel_context_do_pin` (`intel_context.c:295`): an
interruptible transaction is initialised, the retry loop runs, and
`i915_gem_ww_ctx_fini` drops whatever the loop left locked. -/
def __intel_context_do_pin (atts : List WwAttempt) :
    Option (WwCtx × Int) :=
  match do_pin_retry (i915_gem_ww_ctx_init true) atts with
  | none => none
  | some (ww, err) => some (i915_gem_ww_ctx_fini ww, err)

/-! ## Theorems -/

/-- Value of `toSigned` depends only on the low `bits` bits of its
argument. -/
lemma toSigned_congr {bits x y : Nat} (h : x % 2 ^ bits = y % 2 ^ bits) :
    toSigned bits x = toSigned bits y := by
  unfold toSigned
  rw [h]

/-- For operands below the operand-width modulus, the wrapping `u64`
subtraction agrees, modulo the operand width, with subtraction modulo
the operand width. -/
lemma usub64_mod_width {w t v : Nat}
    (hw : w = 1 ∨ w = 2 ∨ w = 4 ∨ w = 8)
    (ht : t < 2 ^ (8 * w)) (hv : v < 2 ^ (8 * w)) :
    usub64 t v % 2 ^ (8 * w) = (t + 2 ^ (8 * w) - v) % 2 ^ (8 * w) := by
  have hU : (U64 : Nat) = 2 ^ 64 := rfl
  rcases hw with rfl | rfl | rfl | rfl <;>
    · unfold usub64
      rw [hU]
      norm_num at ht hv ⊢
      omega

/-- Value of `Nat.size` after one halving: for `n ≠ 0`,
`size n = size (n / 2) + 1`. -/
lemma size_div_two_add_one {n : Nat} (hn : n ≠ 0) :
    Nat.size n = Nat.size (n / 2) + 1 := by
  have hs : 1 ≤ Nat.size n := Nat.size_pos.mpr (Nat.pos_of_ne_zero hn)
  have h1 : Nat.size n ≤ Nat.size (n / 2) + 1 := by
    rw [Nat.size_le]
    have h := Nat.lt_size_self (n / 2)
    have hp : 2 ^ (Nat.size (n / 2) + 1) = 2 * 2 ^ Nat.size (n / 2) := by
      rw [pow_succ]; ring
    omega
  have h2 : Nat.size (n / 2) + 1 ≤ Nat.size n := by
    have hlt := Nat.lt_size_self n
    have hhalf : n / 2 < 2 ^ (Nat.size n - 1) := by
      have hp : 2 ^ Nat.size n = 2 * 2 ^ (Nat.size n - 1) := by
        conv_lhs => rw [show Nat.size n = (Nat.size n - 1) + 1 by omega]
        rw [pow_succ]; ring
      omega
    have := Nat.size_le.mpr hhalf
    omega
  omega

/-- Value of `flsAux` with sufficient fuel: it computes `Nat.size`. -/
lemma flsAux_eq_size : ∀ fuel n : Nat, n < 2 ^ fuel → flsAux fuel n = Nat.size n := by
  intro fuel
  induction fuel with
  | zero =>
    intro n hn
    have : n = 0 := by simpa using Nat.lt_one_iff.mp (by simpa using hn)
    subst this
    simp [flsAux, Nat.size_zero]
  | succ f ih =>
    intro n hn
    by_cases h0 : n = 0
    · subst h0; simp [flsAux, Nat.size_zero]
    · have hdiv : n / 2 < 2 ^ f := by
        have hp : 2 ^ (f + 1) = 2 * 2 ^ f := by rw [pow_succ]; ring
        omega
      simp only [flsAux, if_neg h0, ih (n / 2) hdiv]
      exact (size_div_two_add_one h0).symm

/-- Value of `fls64` on a `u64` operand is `Nat.size`. -/
lemma fls64_eq_size {n : Nat} (hn : n < 2 ^ 64) : fls64 n = Nat.size n :=
  flsAux_eq_size 64 n hn

/-- Characterisation of `fls64`: for a `u64` value, `fls64 n ≤ k` holds
exactly when `n < 2 ^ k`. -/
lemma fls64_le_iff {n k : Nat} (hn : n < 2 ^ 64) : fls64 n ≤ k ↔ n < 2 ^ k := by
  rw [fls64_eq_size hn, Nat.size_le]

/-- Width table: for every possible value `f` of `fls64 mask` the width
computed by `DIV_ROUND_UP(roundup_pow_of_two(f), 8)` is the least element
of `{1, 2, 4, 8}` whose bit count covers `f`. -/
lemma ufence_width_table :
    ∀ f : Nat, f < 65 → 0 < f →
      ((2 ^ fls64 (f - 1) + 7) / 8 = 1 ∨ (2 ^ fls64 (f - 1) + 7) / 8 = 2 ∨
        (2 ^ fls64 (f - 1) + 7) / 8 = 4 ∨ (2 ^ fls64 (f - 1) + 7) / 8 = 8) ∧
      f ≤ 8 * ((2 ^ fls64 (f - 1) + 7) / 8) ∧
      (f ≤ 8 → (2 ^ fls64 (f - 1) + 7) / 8 ≤ 1) ∧
      (f ≤ 16 → (2 ^ fls64 (f - 1) + 7) / 8 ≤ 2) ∧
      (f ≤ 32 → (2 ^ fls64 (f - 1) + 7) / 8 ≤ 4) ∧
      (f ≤ 64 → (2 ^ fls64 (f - 1) + 7) / 8 ≤ 8) := by
  decide

lemma ufence_eq_iff (w mask value mem : Nat) :
    ufence_compare w PRELIM_I915_UFENCE_WAIT_EQ mask value mem = true ↔
      mem &&& mask = value &&& mask := by
  unfold ufence_compare
  norm_num [PRELIM_I915_UFENCE_WAIT_EQ, eq_comm]

lemma ufence_neq_iff (w mask value mem : Nat) :
    ufence_compare w PRELIM_I915_UFENCE_WAIT_NEQ mask value mem = true ↔
      ¬ (mem &&& mask = value &&& mask) := by
  unfold ufence_compare
  norm_num [PRELIM_I915_UFENCE_WAIT_EQ, PRELIM_I915_UFENCE_WAIT_NEQ]
  exact not_congr eq_comm

lemma ufence_gt_iff (w mask value mem : Nat) :
    ufence_compare w PRELIM_I915_UFENCE_WAIT_GT mask value mem = true ↔
      value &&& mask < mem &&& mask := by
  unfold ufence_compare
  norm_num [PRELIM_I915_UFENCE_WAIT_EQ, PRELIM_I915_UFENCE_WAIT_NEQ,
    PRELIM_I915_UFENCE_WAIT_GT]

lemma ufence_gte_iff (w mask value mem : Nat) :
    ufence_compare w PRELIM_I915_UFENCE_WAIT_GTE mask value mem = true ↔
      value &&& mask ≤ mem &&& mask := by
  unfold ufence_compare
  norm_num [PRELIM_I915_UFENCE_WAIT_EQ, PRELIM_I915_UFENCE_WAIT_NEQ,
    PRELIM_I915_UFENCE_WAIT_GT, PRELIM_I915_UFENCE_WAIT_GTE]

lemma ufence_lt_iff (w mask value mem : Nat) :
    ufence_compare w PRELIM_I915_UFENCE_WAIT_LT mask value mem = true ↔
      mem &&& mask < value &&& mask := by
  unfold ufence_compare
  norm_num [PRELIM_I915_UFENCE_WAIT_EQ, PRELIM_I915_UFENCE_WAIT_NEQ,
    PRELIM_I915_UFENCE_WAIT_GT, PRELIM_I915_UFENCE_WAIT_GTE,
    PRELIM_I915_UFENCE_WAIT_LT]

lemma ufence_lte_iff (w mask value mem : Nat) :
    ufence_compare w PRELIM_I915_UFENCE_WAIT_LTE mask value mem = true ↔
      mem &&& mask ≤ value &&& mask := by
  unfold ufence_compare
  norm_num [PRELIM_I915_UFENCE_WAIT_EQ, PRELIM_I915_UFENCE_WAIT_NEQ,
    PRELIM_I915_UFENCE_WAIT_GT, PRELIM_I915_UFENCE_WAIT_GTE,
    PRELIM_I915_UFENCE_WAIT_LT, PRELIM_I915_UFENCE_WAIT_LTE]

lemma ufence_after_iff (w mask value mem : Nat)
    (hw : w = 1 ∨ w = 2 ∨ w = 4 ∨ w = 8) (hmask : mask < 2 ^ (8 * w)) :
    ufence_compare w PRELIM_I915_UFENCE_WAIT_AFTER mask value mem = true ↔
      0 < toSigned (8 * w)
            (((mem &&& mask) + 2 ^ (8 * w) - (value &&& mask)) % 2 ^ (8 * w)) := by
  have ht : mem &&& mask < 2 ^ (8 * w) := lt_of_le_of_lt Nat.and_le_right hmask
  have hv : value &&& mask < 2 ^ (8 * w) := lt_of_le_of_lt Nat.and_le_right hmask
  have hmod := usub64_mod_width hw ht hv
  have hcongr : toSigned (8 * w) (usub64 (mem &&& mask) (value &&& mask)) =
      toSigned (8 * w)
        (((mem &&& mask) + 2 ^ (8 * w) - (value &&& mask)) % 2 ^ (8 * w)) :=
    toSigned_congr (by rw [hmod]; exact Nat.mod_mod_of_dvd _ dvd_rfl |>.symm)
  rcases hw with rfl | rfl | rfl | rfl <;>
    · unfold ufence_compare
      norm_num [PRELIM_I915_UFENCE_WAIT_EQ, PRELIM_I915_UFENCE_WAIT_NEQ,
        PRELIM_I915_UFENCE_WAIT_GT, PRELIM_I915_UFENCE_WAIT_GTE,
        PRELIM_I915_UFENCE_WAIT_LT, PRELIM_I915_UFENCE_WAIT_LTE,
        PRELIM_I915_UFENCE_WAIT_AFTER] at hcongr ⊢
      rw [← hcongr]

lemma ufence_before_iff (w mask value mem : Nat)
    (hw : w = 1 ∨ w = 2 ∨ w = 4 ∨ w = 8) (hmask : mask < 2 ^ (8 * w)) :
    ufence_compare w PRELIM_I915_UFENCE_WAIT_BEFORE mask value mem = true ↔
      toSigned (8 * w)
          (((mem &&& mask) + 2 ^ (8 * w) - (value &&& mask)) % 2 ^ (8 * w)) < 0 := by
  have ht : mem &&& mask < 2 ^ (8 * w) := lt_of_le_of_lt Nat.and_le_right hmask
  have hv : value &&& mask < 2 ^ (8 * w) := lt_of_le_of_lt Nat.and_le_right hmask
  have hmod := usub64_mod_width hw ht hv
  have hcongr : toSigned (8 * w) (usub64 (mem &&& mask) (value &&& mask)) =
      toSigned (8 * w)
        (((mem &&& mask) + 2 ^ (8 * w) - (value &&& mask)) % 2 ^ (8 * w)) :=
    toSigned_congr (by rw [hmod]; exact Nat.mod_mod_of_dvd _ dvd_rfl |>.symm)
  rcases hw with rfl | rfl | rfl | rfl <;>
    · unfold ufence_compare
      norm_num [PRELIM_I915_UFENCE_WAIT_EQ, PRELIM_I915_UFENCE_WAIT_NEQ,
        PRELIM_I915_UFENCE_WAIT_GT, PRELIM_I915_UFENCE_WAIT_GTE,
        PRELIM_I915_UFENCE_WAIT_LT, PRELIM_I915_UFENCE_WAIT_LTE,
        PRELIM_I915_UFENCE_WAIT_AFTER, PRELIM_I915_UFENCE_WAIT_BEFORE] at hcongr ⊢
      rw [← hcongr]

lemma ufence_validate_bad_op (a : WaitUserFenceArgs)
    (h : ufence_valid_op a.op = false) :
    i915_gem_wait_user_fence_validate a = .rejected (-EINVAL) := by
  unfold i915_gem_wait_user_fence_validate
  split_ifs with h1 h2 h3 _h4 <;> first
    | rfl
    | (exact absurd h2 (by simp [h]))

/-- C9: the value-based wait primitive (`ufence_compare`) evaluates its
eight comparison operators on the mask-filtered fixed-width memory value
as follows — EQ/NEQ hold exactly when `(memory & mask)` equals/differs
from `(value & mask)`; GT, GTE, LT, LTE are unsigned comparisons of the
masked memory value against the masked supplied value; ordered-after and
ordered-before hold exactly when the two's-complement difference
`(memory - value)` truncated to the operand width (1, 2, 4 or 8 bytes,
i.e. arithmetic modulo `2^(8*width)`) is strictly positive, respectively
strictly negative; and the ioctl rejects every other operator code with
`-EINVAL` before touching memory (the validation prefix does not depend
on the memory value at all). -/
theorem claim_C9_ufence_compare_semantics (w mask value mem : Nat)
    (hw : w = 1 ∨ w = 2 ∨ w = 4 ∨ w = 8)
    (hmask : mask < 2 ^ (8 * w)) :
    (ufence_compare w PRELIM_I915_UFENCE_WAIT_EQ mask value mem = true ↔
       mem &&& mask = value &&& mask) ∧
    (ufence_compare w PRELIM_I915_UFENCE_WAIT_NEQ mask value mem = true ↔
       ¬ (mem &&& mask = value &&& mask)) ∧
    (ufence_compare w PRELIM_I915_UFENCE_WAIT_GT mask value mem = true ↔
       value &&& mask < mem &&& mask) ∧
    (ufence_compare w PRELIM_I915_UFENCE_WAIT_GTE mask value mem = true ↔
       value &&& mask ≤ mem &&& mask) ∧
    (ufence_compare w PRELIM_I915_UFENCE_WAIT_LT mask value mem = true ↔
       mem &&& mask < value &&& mask) ∧
    (ufence_compare w PRELIM_I915_UFENCE_WAIT_LTE mask value mem = true ↔
       mem &&& mask ≤ value &&& mask) ∧
    (ufence_compare w PRELIM_I915_UFENCE_WAIT_AFTER mask value mem = true ↔
       0 < toSigned (8 * w)
             (((mem &&& mask) + 2 ^ (8 * w) - (value &&& mask)) % 2 ^ (8 * w))) ∧
    (ufence_compare w PRELIM_I915_UFENCE_WAIT_BEFORE mask value mem = true ↔
       toSigned (8 * w)
           (((mem &&& mask) + 2 ^ (8 * w) - (value &&& mask)) % 2 ^ (8 * w)) < 0) ∧
    (∀ a : WaitUserFenceArgs, ufence_valid_op a.op = false →
       i915_gem_wait_user_fence_validate a = .rejected (-EINVAL)) :=
  ⟨ufence_eq_iff w mask value mem, ufence_neq_iff w mask value mem,
   ufence_gt_iff w mask value mem, ufence_gte_iff w mask value mem,
   ufence_lt_iff w mask value mem, ufence_lte_iff w mask value mem,
   ufence_after_iff w mask value mem hw hmask,
   ufence_before_iff w mask value mem hw hmask,
   fun a h => ufence_validate_bad_op a h⟩

/-- Witness for C9 at the concrete input `w = 1`, `mask = 3`,
`value = 2`, `mem = 1`. -/
theorem claim_C9_ufence_compare_semantics_witness :
    ((1 : Nat) = 1 ∨ (1 : Nat) = 2 ∨ (1 : Nat) = 4 ∨ (1 : Nat) = 8) ∧
    (3 : Nat) < 2 ^ (8 * 1) ∧
    (ufence_compare 1 PRELIM_I915_UFENCE_WAIT_EQ 3 2 1 = true ↔
      (1 : Nat) &&& 3 = 2 &&& 3) :=
  ⟨Or.inl rfl, by decide,
   (claim_C9_ufence_compare_semantics 1 3 2 1 (Or.inl rfl) (by decide)).1⟩

/-- C10: at the public wait-user-fence interface, a zero comparison mask
is rejected with `-EINVAL` (`fls64(0) = 0`); the operand width of a
successfully validated call is the byte count of the smallest power of
two covering the position of the mask's highest set bit (stated as: the
least member of `{1, 2, 4, 8}` whose bit width covers the mask); the
supplied user address must be naturally aligned to that width or the
call fails with `-EINVAL`; and consequently the watched memory operand
never crosses a 4 KiB page boundary. -/
theorem claim_C10_wait_fence_validation (a : WaitUserFenceArgs) (hmask : a.mask < 2 ^ 64) :
    (a.mask = 0 → i915_gem_wait_user_fence_validate a = .rejected (-EINVAL)) ∧
    (∀ wake : UfenceWake, i915_gem_wait_user_fence_validate a = .proceeds wake →
      (wake.width = 1 ∨ wake.width = 2 ∨ wake.width = 4 ∨ wake.width = 8) ∧
      a.mask < 2 ^ (8 * wake.width) ∧
      (∀ w' : Nat, (w' = 1 ∨ w' = 2 ∨ w' = 4 ∨ w' = 8) →
        a.mask < 2 ^ (8 * w') → wake.width ≤ w') ∧
      a.addr % wake.width = 0 ∧
      a.addr / 2 ^ PAGE_SHIFT = (a.addr + wake.width - 1) / 2 ^ PAGE_SHIFT) ∧
    (ufence_valid_op a.op = true →
      a.flags &&& (PRELIM_I915_UFENCE_WAIT_SOFT ||| PRELIM_I915_UFENCE_WAIT_ABSTIME)
        = a.flags →
      a.mask ≠ 0 →
      a.addr % ufence_width_of_mask a.mask ≠ 0 →
      i915_gem_wait_user_fence_validate a = .rejected (-EINVAL)) := by
  refine ⟨?_, ?_, ?_⟩
  · intro hm
    have h0 : fls64 a.mask = 0 := by rw [hm]; rfl
    unfold i915_gem_wait_user_fence_validate
    rw [h0]
    split_ifs with g1 g2 g3 g4 <;> first | rfl | omega
  · intro wake h
    unfold i915_gem_wait_user_fence_validate at h
    split_ifs at h with h1 h2 h3 h4
    cases h
    dsimp only
    have hne : a.mask ≠ 0 := fun h0 => h3 (by rw [h0]; rfl)
    have hfpos : 0 < fls64 a.mask := by
      rw [fls64_eq_size hmask]
      exact Nat.size_pos.mpr (Nat.pos_of_ne_zero hne)
    have hf64 : fls64 a.mask ≤ 64 := (fls64_le_iff hmask).mpr hmask
    have wt := ufence_width_table (fls64 a.mask) (by omega) hfpos
    have hwd : ufence_width_of_mask a.mask =
        (2 ^ fls64 (fls64 a.mask - 1) + 7) / 8 := rfl
    have halign : a.addr % ufence_width_of_mask a.mask = 0 := by
      by_contra hc
      exact h4 hc
    refine ⟨?_, ?_, ?_, halign, ?_⟩
    · rw [hwd]; exact wt.1
    · rw [hwd]
      exact (fls64_le_iff hmask).mp wt.2.1
    · intro w' hw' hlt
      have hf : fls64 a.mask ≤ 8 * w' := (fls64_le_iff hmask).mpr hlt
      rw [hwd]
      rcases hw' with rfl | rfl | rfl | rfl
      · exact wt.2.2.1 (by omega)
      · exact wt.2.2.2.1 (by omega)
      · exact wt.2.2.2.2.1 (by omega)
      · exact wt.2.2.2.2.2 (by omega)
    · have hdisj := wt.1
      rw [← hwd] at hdisj
      have hP : (2 : Nat) ^ PAGE_SHIFT = 4096 := by norm_num [PAGE_SHIFT]
      rcases hdisj with hw | hw | hw | hw <;>
        · rw [hw] at halign ⊢
          rw [hP]
          omega
  · intro hop hflags hne halign
    have hf0 : ¬ (fls64 a.mask = 0) := by
      intro h0
      have : 0 < fls64 a.mask := by
        rw [fls64_eq_size hmask]
        exact Nat.size_pos.mpr (Nat.pos_of_ne_zero hne)
      omega
    unfold i915_gem_wait_user_fence_validate
    rw [if_neg (by simpa using hflags), if_neg (by simp [hop]), if_neg hf0,
        if_pos halign]

/-- Witness for C10 at the concrete input
`{flags := 0, op := EQ, mask := 0xffffffff, value := 0, addr := 4}`:
the validated width is 4 bytes, the address is aligned and the operand
stays within one page. -/
theorem claim_C10_wait_fence_validation_witness :
    (0xffffffff : Nat) < 2 ^ 64 ∧
    (4 : Nat) % 4 = 0 ∧
    (4 : Nat) / 2 ^ PAGE_SHIFT = (4 + 4 - 1) / 2 ^ PAGE_SHIFT := by
  have h := claim_C10_wait_fence_validation
    { flags := 0, op := PRELIM_I915_UFENCE_WAIT_EQ, mask := 0xffffffff,
      value := 0, addr := 4 } (by norm_num)
  have h2 := h.2.1
    { width := 4, op := PRELIM_I915_UFENCE_WAIT_EQ, mask := 0xffffffff,
      value := 0, addr := 4 } (by decide)
  exact ⟨by norm_num, h2.2.2.2.1, h2.2.2.2.2⟩

/-- C8 (claim as stated is false): on an awake, unwedged engine using
the GuC submission backend whose submission queue is empty,
`intel_engine_is_idle` reports *non*-idle — it does not report idleness
from the queue-empty check alone, contrary to the claim.  (It does
refrain from reading ring registers, as the last conjunct shows.) -/
theorem claim_C8_counterexample :
    intel_engine_is_idle
      { gtWedged := false, pmAwake := true, schedEngineEmpty := true,
        usesGuc := true, pmGetIfAwake := true, ringHead := 0, ringTail := 0,
        ringMiMode := 0 } = false ∧
    ({ gtWedged := false, pmAwake := true, schedEngineEmpty := true,
        usesGuc := true, pmGetIfAwake := true, ringHead := 0, ringTail := 0,
        ringMiMode := 0 } : EngineState).usesGuc = true ∧
    ({ gtWedged := false, pmAwake := true, schedEngineEmpty := true,
        usesGuc := true, pmGetIfAwake := true, ringHead := 0, ringTail := 0,
        ringMiMode := 0 } : EngineState).schedEngineEmpty = true ∧
    intel_engine_is_idle_reads_ring_regs
      { gtWedged := false, pmAwake := true, schedEngineEmpty := true,
        usesGuc := true, pmGetIfAwake := true, ringHead := 0, ringTail := 0,
        ringMiMode := 0 } = false :=
  ⟨by decide, rfl, rfl, by decide⟩

/-- C8 (amended): engine idle detection composes the wedged, power,
queue-empty and (backend-dependent) register checks such that an engine
using the GuC submission backend never reads ring registers in
`is_idle` and, while unwedged and awake, always reports non-idle — its
idleness is tied to the power state rather than to the queue-empty
check; and an unwedged, awake engine holding one non-completed
submitted request reports `is_idle() = false`. -/
theorem claim_C8_engine_idle_amended :
    (∀ e : EngineState, e.usesGuc = true →
       intel_engine_is_idle_reads_ring_regs e = false) ∧
    (∀ e : EngineState, e.usesGuc = true → e.gtWedged = false →
       e.pmAwake = true → intel_engine_is_idle e = false) ∧
    (∀ e : EngineState, e.gtWedged = false → e.pmAwake = true →
       engine_has_active_request e → intel_engine_is_idle e = false) := by
  refine ⟨?_, ?_, ?_⟩
  · intro e h
    simp [intel_engine_is_idle_reads_ring_regs, h]
  · intro e hguc hwedge hawake
    cases hse : e.schedEngineEmpty <;>
      simp [intel_engine_is_idle, hguc, hwedge, hawake, hse]
  · intro e hwedge hawake hreq
    rcases hreq with h | h | ⟨hp, hr⟩ | ⟨hp, hm⟩
    · simp [intel_engine_is_idle, hwedge, hawake, h]
    · cases hse : e.schedEngineEmpty <;>
        simp [intel_engine_is_idle, hwedge, hawake, h, hse]
    · cases hse : e.schedEngineEmpty <;>
        cases hguc : e.usesGuc <;>
          simp [intel_engine_is_idle, ring_is_idle, hwedge, hawake, hse,
            hguc, hp, hr]
    · cases hse : e.schedEngineEmpty <;>
        cases hguc : e.usesGuc <;>
          simp [intel_engine_is_idle, ring_is_idle, hwedge, hawake, hse,
            hguc, hp, hm]

/-- Witness for the amended C8 theorem at a concrete non-GuC engine
state whose ring head differs from its tail. -/
theorem claim_C8_engine_idle_amended_witness :
    ({ gtWedged := false, pmAwake := true, schedEngineEmpty := true,
       usesGuc := false, pmGetIfAwake := true, ringHead := 4, ringTail := 8,
       ringMiMode := 0 } : EngineState).gtWedged = false ∧
    ({ gtWedged := false, pmAwake := true, schedEngineEmpty := true,
       usesGuc := false, pmGetIfAwake := true, ringHead := 4, ringTail := 8,
       ringMiMode := 0 } : EngineState).pmAwake = true ∧
    engine_has_active_request
      { gtWedged := false, pmAwake := true, schedEngineEmpty := true,
        usesGuc := false, pmGetIfAwake := true, ringHead := 4, ringTail := 8,
        ringMiMode := 0 } ∧
    intel_engine_is_idle
      { gtWedged := false, pmAwake := true, schedEngineEmpty := true,
        usesGuc := false, pmGetIfAwake := true, ringHead := 4, ringTail := 8,
        ringMiMode := 0 } = false :=
  ⟨rfl, rfl, Or.inr (Or.inr (Or.inl ⟨rfl, by decide⟩)),
   claim_C8_engine_idle_amended.2.2
     { gtWedged := false, pmAwake := true, schedEngineEmpty := true,
       usesGuc := false, pmGetIfAwake := true, ringHead := 4, ringTail := 8,
       ringMiMode := 0 } rfl rfl
     (Or.inr (Or.inr (Or.inl ⟨rfl, by decide⟩)))⟩

/-- Successor-shift direction of the DPC-loop characterisation: a hit
found while scanning the tail, with the loop index advanced by one, is a
hit of the whole list. -/
lemma dg1_shift_step (mtc i : Nat) (t : GtTile) (ts : List GtTile)
    (h : ∃ j : Fin ts.length, mtc.testBit (i + 1 + j.val) = true ∧
      (ts.get j).isMedia = false ∧ (ts.get j).masterCtl = 2 ^ 32 - 1) :
    ∃ j : Fin (t :: ts).length, mtc.testBit (i + j.val) = true ∧
      ((t :: ts).get j).isMedia = false ∧
      ((t :: ts).get j).masterCtl = 2 ^ 32 - 1 := by
  obtain ⟨j, hj1, hj2, hj3⟩ := h
  refine ⟨j.succ, ?_, ?_, ?_⟩
  · have he : i + j.succ.val = i + 1 + j.val := by
      simp [Fin.val_succ]
      omega
    rw [he]
    exact hj1
  · simpa using hj2
  · simpa using hj3

/-- Converse shift: when the head tile itself is not a hit, a hit of the
whole list must lie in the tail. -/
lemma dg1_unshift_step (mtc i : Nat) (t : GtTile) (ts : List GtTile)
    (h0 : ¬ (mtc.testBit i = true ∧ t.isMedia = false ∧
      t.masterCtl = 2 ^ 32 - 1))
    (h : ∃ j : Fin (t :: ts).length, mtc.testBit (i + j.val) = true ∧
      ((t :: ts).get j).isMedia = false ∧
      ((t :: ts).get j).masterCtl = 2 ^ 32 - 1) :
    ∃ j : Fin ts.length, mtc.testBit (i + 1 + j.val) = true ∧
      (ts.get j).isMedia = false ∧ (ts.get j).masterCtl = 2 ^ 32 - 1 := by
  obtain ⟨⟨jv, hjv⟩, hj1, hj2, hj3⟩ := h
  cases jv with
  | zero =>
    exfalso
    exact h0 ⟨by simpa using hj1, by simpa using hj2, by simpa using hj3⟩
  | succ jv =>
    refine ⟨⟨jv, by simpa using hjv⟩, ?_, ?_, ?_⟩
    · have he : i + 1 + jv = i + (jv + 1) := by omega
      rw [he]
      exact hj1
    · simpa using hj2
    · simpa using hj3

/-- Characterisation of the DPC early return: the tile loop of
`dg1_irq_handler` aborts exactly when some pending, non-media tile reads
all ones from its `GEN11_GFX_MSTR_IRQ` register. -/
lemma dg1_process_tiles_false_iff (mtc : Nat) :
    ∀ (i : Nat) (ts : List GtTile),
      dg1_process_tiles mtc i ts = false ↔
        ∃ j : Fin ts.length, mtc.testBit (i + j.val) = true ∧
          (ts.get j).isMedia = false ∧ (ts.get j).masterCtl = 2 ^ 32 - 1 := by
  intro i ts
  induction ts generalizing i with
  | nil => simp [dg1_process_tiles]
  | cons t ts ih =>
    unfold dg1_process_tiles
    by_cases hb : mtc.testBit i
    · by_cases hm : t.isMedia
      · rw [if_neg (by simpa using hb), if_pos hm, ih (i + 1)]
        exact ⟨dg1_shift_step mtc i t ts,
          dg1_unshift_step mtc i t ts (by simp [hm])⟩
      · by_cases hdpc : t.masterCtl = 2 ^ 32 - 1
        · rw [if_neg (by simpa using hb), if_neg hm, if_pos hdpc]
          constructor
          · intro _
            exact ⟨⟨0, by simp⟩, by simpa using hb, by simpa using hm,
              by simpa using hdpc⟩
          · intro _
            rfl
        · rw [if_neg (by simpa using hb), if_neg hm, if_neg hdpc, ih (i + 1)]
          exact ⟨dg1_shift_step mtc i t ts,
            dg1_unshift_step mtc i t ts (fun h => hdpc (by simpa using h.2.2))⟩
    · rw [if_pos (by simpa using hb), ih (i + 1)]
      exact ⟨dg1_shift_step mtc i t ts,
        dg1_unshift_step mtc i t ts (by simp [hb])⟩

/-- C4 (claim as stated is false): with interrupts enabled, tile 0
pending and tile 0's `GEN11_GFX_MSTR_IRQ` reading all ones,
`dg1_irq_handler` disables the top-level master enable register and
returns `IRQ_HANDLED` on the DPC-containment path *without* re-enabling
it — a return path that violates the claim's "re-enables on every
return path". -/
theorem claim_C4_counterexample :
    (dg1_irq_handler true 1
      [{ isMedia := false, masterCtl := 2 ^ 32 - 1 }]).disabledMaster = true ∧
    (dg1_irq_handler true 1
      [{ isMedia := false, masterCtl := 2 ^ 32 - 1 }]).reenabledMaster = false ∧
    (dg1_irq_handler true 1
      [{ isMedia := false, masterCtl := 2 ^ 32 - 1 }]).ret
        = IrqRetval.irqHandled :=
  ⟨by decide, by decide, by decide⟩

/-- C4 (amended): every invocation of `gen11_irq_handler` that begins by
disabling the top-level master enable register re-enables it before
returning, on every return path including the no-event path; and every
such invocation of `dg1_irq_handler` either re-enables the master
register before returning or takes the DPC-containment path — some
pending, non-media tile's master interrupt register read returned all
ones (device inaccessible) and the handler returns `IRQ_HANDLED`
without re-enabling. -/
theorem claim_C4_master_reenable_amended :
    (∀ (en : Bool) (mc : Nat),
       (gen11_irq_handler en mc).disabledMaster = true →
       (gen11_irq_handler en mc).reenabledMaster = true) ∧
    (∀ (en : Bool) (mtc : Nat) (tiles : List GtTile),
       (dg1_irq_handler en mtc tiles).disabledMaster = true →
       (dg1_irq_handler en mtc tiles).reenabledMaster = true ∨
       ((dg1_irq_handler en mtc tiles).ret = IrqRetval.irqHandled ∧
        ∃ j : Fin tiles.length, mtc.testBit j.val = true ∧
          (tiles.get j).isMedia = false ∧
          (tiles.get j).masterCtl = 2 ^ 32 - 1)) := by
  constructor
  · intro en mc h
    cases en with
    | false => simp [gen11_irq_handler] at h
    | true =>
      by_cases h0 : mc = 0 <;> simp [gen11_irq_handler, h0]
  · intro en mtc tiles h
    cases en with
    | false => simp [dg1_irq_handler] at h
    | true =>
      by_cases h0 : mtc = 0
      · left
        simp [dg1_irq_handler, h0]
      · by_cases hp : dg1_process_tiles mtc 0 tiles
        · left
          simp [dg1_irq_handler, h0, hp]
        · right
          constructor
          · simp [dg1_irq_handler, h0, hp]
          · have := (dg1_process_tiles_false_iff mtc 0 tiles).mp
              (by simpa using hp)
            simpa using this

/-- Witness for the amended C4 theorem: a `gen11_irq_handler` call with
interrupts enabled and a pending source both disables and re-enables the
master register. -/
theorem claim_C4_master_reenable_amended_witness :
    (gen11_irq_handler true 5).disabledMaster = true ∧
    (gen11_irq_handler true 5).reenabledMaster = true :=
  ⟨by decide, claim_C4_master_reenable_amended.1 true 5 (by decide)⟩

/-- Value of `bump` at a point. -/
lemma bump_apply (f : Nat → Nat) (i j : Nat) :
    bump f i j = if j = i then f i + 1 else f j := by
  unfold bump Function.update
  by_cases h : j = i <;> simp [h]

/-- Value of `setAt` at a point. -/
lemma setAt_apply (f : Nat → Nat) (i v j : Nat) :
    setAt f i v j = if j = i then v else f j := by
  unfold setAt Function.update
  by_cases h : j = i <;> simp [h]

/-- Value of `addAt` at a point. -/
lemma addAt_apply (f : Nat → Nat) (i n j : Nat) :
    addAt f i n j = if j = i then f i + n else f j := by
  unfold addAt Function.update
  by_cases h : j = i <;> simp [h]

/-- Value of each SOC counter after a run: its initial value plus the
number of observations at its index. -/
lemma soc_run_exact (isPVC hasVectors : Bool) :
    ∀ (obs : List HwErrObs) (s : ErrCounters) (idx : Nat),
      (hw_error_stats_run isPVC hasVectors s obs).soc idx
        = s.soc idx + socObsCount idx obs := by
  intro obs
  induction obs with
  | nil => intro s idx; simp [hw_error_stats_run, socObsCount]
  | cons o os ih =>
    intro s idx
    have hrun : hw_error_stats_run isPVC hasVectors s (o :: os)
        = hw_error_stats_run isPVC hasVectors
            (hw_error_stats_step isPVC hasVectors s o) os := rfl
    rw [hrun, ih]
    cases o with
    | gtCorrectable es slm =>
      simp [hw_error_stats_step, socObsCount, List.countP_cons]
    | socErr j =>
      simp only [hw_error_stats_step, socObsCount, List.countP_cons]
      by_cases hj : j = idx <;>
        simp [update_soc_hw_error_cnt, bump_apply, hj] <;> omega

/-- Bumping one index never decreases any entry. -/
lemma le_bump (f : Nat → Nat) (i j : Nat) : f j ≤ bump f i j := by
  rw [bump_apply]
  split_ifs with hc
  · subst hc; omega
  · omega

/-- Per-bit monotonicity of the correctable updater, except for the SLM
counter on non-PVC platforms (where the entry is overwritten by the
hardware register value). -/
lemma gt_cor_bit_update_hw_mono (pv : Bool) (slm : Nat) (acc : StatsOut)
    (bb idx : Nat) (h : pv = true ∨ idx ≠ INTEL_GT_HW_ERROR_COR_SLM) :
    acc.hw idx ≤ (gt_cor_bit_update pv slm acc bb).hw idx := by
  unfold gt_cor_bit_update
  split_ifs with h1 h2 h3 h4 h5 h6 h7 h8
  · exact le_refl _
  · exact le_bump _ _ _
  · exact le_bump _ _ _
  · exact le_bump _ _ _
  · exact le_bump _ _ _
  · show acc.hw idx ≤ setAt acc.hw INTEL_GT_HW_ERROR_COR_SLM slm idx
    rw [setAt_apply]
    split_ifs with hc
    · rcases h with hpv | hidx
      · exact absurd hpv h6
      · exact absurd hc hidx
    · exact le_refl _
  · exact le_bump _ _ _
  · exact le_bump _ _ _
  · exact le_refl _

/-- Monotonicity of the correctable per-bit fold. -/
lemma foldl_cor_hw_mono (pv : Bool) (slm es idx : Nat)
    (h : pv = true ∨ idx ≠ INTEL_GT_HW_ERROR_COR_SLM) :
    ∀ (l : List Nat) (acc : StatsOut),
      acc.hw idx ≤ (l.foldl
        (fun a bb => if es.testBit bb then gt_cor_bit_update pv slm a bb else a)
        acc).hw idx := by
  intro l
  induction l with
  | nil => intro acc; exact le_refl _
  | cons bb l ih =>
    intro acc
    by_cases hb : es.testBit bb
    · calc acc.hw idx ≤ (gt_cor_bit_update pv slm acc bb).hw idx :=
            gt_cor_bit_update_hw_mono pv slm acc bb idx h
        _ ≤ _ := by
            have := ih (gt_cor_bit_update pv slm acc bb)
            simpa [List.foldl_cons, hb] using this
    · have := ih acc
      simpa [List.foldl_cons, hb] using this

/-- Monotonicity of one `gen12_gt_correctable_hw_error_stats_update`
call at every index other than the non-PVC SLM counter. -/
lemma gt_cor_update_hw_mono (pv hv : Bool) (slm : Nat) (hw : Nat → Nat)
    (es idx : Nat) (h : pv = true ∨ idx ≠ INTEL_GT_HW_ERROR_COR_SLM) :
    hw idx ≤ (gen12_gt_correctable_hw_error_stats_update pv hv slm hw es).hw idx := by
  unfold gen12_gt_correctable_hw_error_stats_update
  split_ifs with h0
  · exact le_refl _
  · show hw idx ≤ ((List.range GT_HW_ERROR_MAX_ERR_BITS).foldl
      (fun a bb => if es.testBit bb then gt_cor_bit_update pv slm a bb else a)
      { hw := hw, driverLogs := 0, hwLogs := 0 }).hw idx
    exact foldl_cor_hw_mono pv slm es idx h
      (List.range GT_HW_ERROR_MAX_ERR_BITS)
      { hw := hw, driverLogs := 0, hwLogs := 0 }

/-- Additivity of the per-bit fold at a counter index touched by exactly
the bits equal to `b`. -/
lemma foldl_cor_hw_add (pv : Bool) (slm es b idx : Nat) :
    ∀ (l : List Nat) (acc : StatsOut),
      (∀ (a : StatsOut) (bb : Nat), bb ∈ l →
        (gt_cor_bit_update pv slm a bb).hw idx
          = a.hw idx + (if bb = b then 1 else 0)) →
      (l.foldl
        (fun a bb => if es.testBit bb then gt_cor_bit_update pv slm a bb else a)
        acc).hw idx
        = acc.hw idx + l.countP (fun bb => bb == b && es.testBit bb) := by
  intro l
  induction l with
  | nil => intro acc h; simp
  | cons bb l ih =>
    intro acc h
    have hmem : ∀ (a : StatsOut) (cc : Nat), cc ∈ l →
        (gt_cor_bit_update pv slm a cc).hw idx
          = a.hw idx + (if cc = b then 1 else 0) :=
      fun a cc hcc => h a cc (List.mem_cons_of_mem bb hcc)
    by_cases hb : es.testBit bb
    · have hstep := h acc bb (List.mem_cons_self bb l)
      rw [List.foldl_cons, if_pos hb, ih _ hmem, hstep, List.countP_cons]
      by_cases he : bb = b
      · subst he
        simp [hb]
        omega
      · have hbeq : (bb == b) = false := by simp [he]
        simp [he, hbeq]
    · rw [List.foldl_cons, if_neg hb, ih _ hmem, List.countP_cons]
      simp [hb]

/-- Bits of the modelled `PVC_COR_ERR_MASK`. -/
lemma pvc_cor_mask_testBit :
    ∀ bb : Nat, bb < 16 → PVC_COR_ERR_MASK.testBit bb = decide (bb < 6) := by
  decide

/-- Bits of the numeral 63 (the modelled `PVC_COR_ERR_MASK` value). -/
lemma testBit_63 :
    ∀ bb : Nat, bb < 16 → Nat.testBit 63 bb = decide (bb < 6) := by
  decide

/-- Behaviour of the per-bit body at each plain-increment counter: only
its own bit bumps it. -/
lemma gt_cor_pairs_step (pv : Bool) (slm : Nat) (b idx : Nat)
    (hmem : (b, idx) ∈ gtCorBitCounterPairs) :
    ∀ (a : StatsOut) (bb : Nat), bb ∈ List.range GT_HW_ERROR_MAX_ERR_BITS →
      (gt_cor_bit_update pv slm a bb).hw idx
        = a.hw idx + (if bb = b then 1 else 0) := by
  intro a bb hbb
  rw [List.mem_range] at hbb
  have hbb16 : bb < 16 := hbb
  clear hbb
  fin_cases hmem <;> interval_cases bb <;> cases pv <;>
    simp [gt_cor_bit_update, bump_apply, setAt_apply, pvc_cor_mask_testBit,
      testBit_63, PVC_COR_ERR_MASK,
      L3_SNG_COR_ERR, GUC_COR_ERR, SAMPLER_COR_ERR, SLM_COR_ERR,
      EU_IC_COR_ERR, EU_GRF_COR_ERR,
      INTEL_GT_HW_ERROR_COR_L3_SNG, INTEL_GT_HW_ERROR_COR_GUC,
      INTEL_GT_HW_ERROR_COR_SAMPLER, INTEL_GT_HW_ERROR_COR_SLM,
      INTEL_GT_HW_ERROR_COR_EU_IC, INTEL_GT_HW_ERROR_COR_EU_GRF]

/-- Count of elements equal to `b` that also satisfy `p`. -/
lemma countP_beq_and (p : Nat → Bool) (b : Nat) :
    ∀ l : List Nat,
      l.countP (fun bb => bb == b && p bb) = if p b then l.count b else 0 := by
  intro l
  induction l with
  | nil => simp
  | cons x l ih =>
    rw [List.countP_cons, List.count_cons, ih]
    by_cases hx : x = b
    · subst hx
      by_cases hp : p x <;> simp [hp]
    · have hbeq : (x == b) = false := by simp [hx]
      by_cases hp : p b <;> simp [hbeq, hp, hx]

/-- Value of a plain-increment counter after one
`gen12_gt_correctable_hw_error_stats_update` call. -/
lemma gt_cor_update_hw_exact (pv hv : Bool) (slm : Nat) (hw : Nat → Nat)
    (es b idx : Nat) (hmem : (b, idx) ∈ gtCorBitCounterPairs) :
    (gen12_gt_correctable_hw_error_stats_update pv hv slm hw es).hw idx
      = hw idx + (if es.testBit b then 1 else 0) := by
  have hb16 : b < 16 := by fin_cases hmem <;> norm_num [L3_SNG_COR_ERR,
    GUC_COR_ERR, SAMPLER_COR_ERR, EU_IC_COR_ERR, EU_GRF_COR_ERR]
  unfold gen12_gt_correctable_hw_error_stats_update
  by_cases h0 : es = 0 ∧ hv = true
  · rw [if_pos h0]
    obtain ⟨h00, _⟩ := h0
    subst h00
    simp [Nat.zero_testBit]
  · rw [if_neg h0]
    show ((List.range GT_HW_ERROR_MAX_ERR_BITS).foldl
      (fun a bb => if es.testBit bb then gt_cor_bit_update pv slm a bb else a)
      { hw := hw, driverLogs := 0, hwLogs := 0 }).hw idx
        = hw idx + (if es.testBit b then 1 else 0)
    rw [foldl_cor_hw_add pv slm es b idx (List.range GT_HW_ERROR_MAX_ERR_BITS)
      { hw := hw, driverLogs := 0, hwLogs := 0 }
      (gt_cor_pairs_step pv slm b idx hmem)]
    rw [countP_beq_and (fun bb => es.testBit bb) b (List.range GT_HW_ERROR_MAX_ERR_BITS)]
    have hcount : (List.range GT_HW_ERROR_MAX_ERR_BITS).count b = 1 :=
      List.count_eq_one_of_mem (List.nodup_range _)
        (List.mem_range.mpr hb16)
    rw [hcount]

/-- Behaviour of the per-bit body at the SLM counter on PVC: a plain
increment driven by the SLM bit. -/
lemma gt_cor_slm_pvc_step (slm : Nat) :
    ∀ (a : StatsOut) (bb : Nat), bb ∈ List.range GT_HW_ERROR_MAX_ERR_BITS →
      (gt_cor_bit_update true slm a bb).hw INTEL_GT_HW_ERROR_COR_SLM
        = a.hw INTEL_GT_HW_ERROR_COR_SLM
          + (if bb = SLM_COR_ERR then 1 else 0) := by
  intro a bb hbb
  rw [List.mem_range] at hbb
  have hbb16 : bb < 16 := hbb
  clear hbb
  interval_cases bb <;>
    simp [gt_cor_bit_update, bump_apply, setAt_apply, testBit_63,
      PVC_COR_ERR_MASK,
      L3_SNG_COR_ERR, GUC_COR_ERR, SAMPLER_COR_ERR, SLM_COR_ERR,
      EU_IC_COR_ERR, EU_GRF_COR_ERR,
      INTEL_GT_HW_ERROR_COR_L3_SNG, INTEL_GT_HW_ERROR_COR_GUC,
      INTEL_GT_HW_ERROR_COR_SAMPLER, INTEL_GT_HW_ERROR_COR_SLM,
      INTEL_GT_HW_ERROR_COR_EU_IC, INTEL_GT_HW_ERROR_COR_EU_GRF]

/-- Value of the SLM counter after one update call on PVC. -/
lemma gt_cor_slm_pvc_exact (hv : Bool) (slm : Nat) (hw : Nat → Nat)
    (es : Nat) :
    (gen12_gt_correctable_hw_error_stats_update true hv slm hw es).hw
        INTEL_GT_HW_ERROR_COR_SLM
      = hw INTEL_GT_HW_ERROR_COR_SLM
        + (if es.testBit SLM_COR_ERR then 1 else 0) := by
  unfold gen12_gt_correctable_hw_error_stats_update
  by_cases h0 : es = 0 ∧ hv = true
  · rw [if_pos h0]
    obtain ⟨h00, _⟩ := h0
    subst h00
    simp [Nat.zero_testBit]
  · rw [if_neg h0]
    show ((List.range GT_HW_ERROR_MAX_ERR_BITS).foldl
      (fun a bb => if es.testBit bb then gt_cor_bit_update true slm a bb else a)
      { hw := hw, driverLogs := 0, hwLogs := 0 }).hw INTEL_GT_HW_ERROR_COR_SLM
        = hw INTEL_GT_HW_ERROR_COR_SLM
          + (if es.testBit SLM_COR_ERR then 1 else 0)
    rw [foldl_cor_hw_add true slm es SLM_COR_ERR INTEL_GT_HW_ERROR_COR_SLM
      (List.range GT_HW_ERROR_MAX_ERR_BITS)
      { hw := hw, driverLogs := 0, hwLogs := 0 }
      (fun a bb hbb => gt_cor_slm_pvc_step slm a bb hbb)]
    rw [countP_beq_and (fun bb => es.testBit bb) SLM_COR_ERR
      (List.range GT_HW_ERROR_MAX_ERR_BITS)]
    have hcount : (List.range GT_HW_ERROR_MAX_ERR_BITS).count SLM_COR_ERR = 1 :=
      List.count_eq_one_of_mem (List.nodup_range _)
        (List.mem_range.mpr
          (by norm_num [SLM_COR_ERR, GT_HW_ERROR_MAX_ERR_BITS]))
    rw [hcount]

/-- On non-PVC platforms no bit other than `SLM_COR_ERR` touches the SLM
counter. -/
lemma gt_cor_slm_nonpvc_preserve (slm : Nat) :
    ∀ (a : StatsOut) (bb : Nat), bb ∈ List.range GT_HW_ERROR_MAX_ERR_BITS →
      bb ≠ SLM_COR_ERR →
      (gt_cor_bit_update false slm a bb).hw INTEL_GT_HW_ERROR_COR_SLM
        = a.hw INTEL_GT_HW_ERROR_COR_SLM := by
  intro a bb hbb hne
  rw [List.mem_range] at hbb
  have hbb16 : bb < 16 := hbb
  clear hbb
  interval_cases bb <;>
    simp_all [gt_cor_bit_update, bump_apply, setAt_apply, testBit_63,
      PVC_COR_ERR_MASK,
      L3_SNG_COR_ERR, GUC_COR_ERR, SAMPLER_COR_ERR, SLM_COR_ERR,
      EU_IC_COR_ERR, EU_GRF_COR_ERR,
      INTEL_GT_HW_ERROR_COR_L3_SNG, INTEL_GT_HW_ERROR_COR_GUC,
      INTEL_GT_HW_ERROR_COR_SAMPLER, INTEL_GT_HW_ERROR_COR_SLM,
      INTEL_GT_HW_ERROR_COR_EU_IC, INTEL_GT_HW_ERROR_COR_EU_GRF]

/-- On non-PVC platforms the SLM bit overwrites the SLM counter with the
hardware `SLM_ECC_ERROR_CNTR` value. -/
lemma gt_cor_slm_nonpvc_set (slm : Nat) :
    ∀ a : StatsOut,
      (gt_cor_bit_update false slm a SLM_COR_ERR).hw INTEL_GT_HW_ERROR_COR_SLM
        = slm := by
  intro a
  simp [gt_cor_bit_update, setAt_apply, testBit_63, PVC_COR_ERR_MASK,
    L3_SNG_COR_ERR, GUC_COR_ERR, SAMPLER_COR_ERR, SLM_COR_ERR,
    INTEL_GT_HW_ERROR_COR_SLM]

/-- Value of the SLM counter after the non-PVC per-bit fold: the
register value when the SLM bit is processed, untouched otherwise. -/
lemma foldl_cor_slm_setlast (slm es : Nat) :
    ∀ (l : List Nat) (acc : StatsOut),
      (∀ (a : StatsOut) (bb : Nat), bb ∈ l → bb ≠ SLM_COR_ERR →
        (gt_cor_bit_update false slm a bb).hw INTEL_GT_HW_ERROR_COR_SLM
          = a.hw INTEL_GT_HW_ERROR_COR_SLM) →
      (l.foldl
        (fun a bb => if es.testBit bb then gt_cor_bit_update false slm a bb else a)
        acc).hw INTEL_GT_HW_ERROR_COR_SLM
        = if SLM_COR_ERR ∈ l ∧ es.testBit SLM_COR_ERR then slm
          else acc.hw INTEL_GT_HW_ERROR_COR_SLM := by
  intro l
  induction l with
  | nil => intro acc h; simp
  | cons bb l ih =>
    intro acc h
    have hmem : ∀ (a : StatsOut) (cc : Nat), cc ∈ l → cc ≠ SLM_COR_ERR →
        (gt_cor_bit_update false slm a cc).hw INTEL_GT_HW_ERROR_COR_SLM
          = a.hw INTEL_GT_HW_ERROR_COR_SLM :=
      fun a cc hcc => h a cc (List.mem_cons_of_mem bb hcc)
    by_cases he : bb = SLM_COR_ERR
    · subst he
      by_cases hb : es.testBit SLM_COR_ERR
      · rw [List.foldl_cons, if_pos hb, ih _ hmem]
        by_cases hmem2 : SLM_COR_ERR ∈ l
        · simp [hmem2, hb]
        · simp [hmem2, hb, gt_cor_slm_nonpvc_set]
      · rw [List.foldl_cons, if_neg hb, ih _ hmem]
        simp [hb]
    · have hcons : (SLM_COR_ERR ∈ bb :: l) ↔ (SLM_COR_ERR ∈ l) := by
        rw [List.mem_cons]
        constructor
        · rintro (hx | hx)
          · exact absurd hx.symm he
          · exact hx
        · exact Or.inr
      by_cases hb : es.testBit bb
      · rw [List.foldl_cons, if_pos hb, ih _ hmem,
          h acc bb (List.mem_cons_self bb l) he]
        by_cases hmem2 : SLM_COR_ERR ∈ l <;>
          simp [hmem2, hcons]
      · rw [List.foldl_cons, if_neg hb, ih _ hmem]
        by_cases hmem2 : SLM_COR_ERR ∈ l <;>
          simp [hmem2, hcons]

/-- Value of the SLM counter after one update call on a non-PVC platform
with the SLM bit set: the hardware register value, not an increment. -/
lemma gt_cor_slm_nonpvc_exact (hv : Bool) (slm : Nat) (hw : Nat → Nat)
    (es : Nat) (hbit : es.testBit SLM_COR_ERR = true) :
    (gen12_gt_correctable_hw_error_stats_update false hv slm hw es).hw
        INTEL_GT_HW_ERROR_COR_SLM = slm := by
  unfold gen12_gt_correctable_hw_error_stats_update
  have hne : ¬ (es = 0 ∧ hv = true) := by
    rintro ⟨h00, -⟩
    subst h00
    simp [Nat.zero_testBit] at hbit
  rw [if_neg hne]
  show ((List.range GT_HW_ERROR_MAX_ERR_BITS).foldl
    (fun a bb => if es.testBit bb then gt_cor_bit_update false slm a bb else a)
    { hw := hw, driverLogs := 0, hwLogs := 0 }).hw INTEL_GT_HW_ERROR_COR_SLM
      = slm
  rw [foldl_cor_slm_setlast slm es (List.range GT_HW_ERROR_MAX_ERR_BITS)
    { hw := hw, driverLogs := 0, hwLogs := 0 }
    (gt_cor_slm_nonpvc_preserve slm)]
  rw [if_pos ⟨List.mem_range.mpr
    (by norm_num [SLM_COR_ERR, GT_HW_ERROR_MAX_ERR_BITS]), hbit⟩]

/-- Value of each plain-increment GT counter after a run: initial value
plus the number of observations carrying its bit. -/
lemma hw_run_exact (pv hv : Bool) (b idx : Nat)
    (hmem : (b, idx) ∈ gtCorBitCounterPairs) :
    ∀ (obs : List HwErrObs) (s : ErrCounters),
      (hw_error_stats_run pv hv s obs).hw idx
        = s.hw idx + gtBitObsCount b obs := by
  intro obs
  induction obs with
  | nil => intro s; simp [hw_error_stats_run, gtBitObsCount]
  | cons o os ih =>
    intro s
    have hrun : hw_error_stats_run pv hv s (o :: os)
        = hw_error_stats_run pv hv (hw_error_stats_step pv hv s o) os := rfl
    rw [hrun, ih]
    cases o with
    | gtCorrectable es slm =>
      show (gen12_gt_correctable_hw_error_stats_update pv hv slm s.hw es).hw idx
          + gtBitObsCount b os = s.hw idx + gtBitObsCount b (.gtCorrectable es slm :: os)
      rw [gt_cor_update_hw_exact pv hv slm s.hw es b idx hmem]
      simp only [gtBitObsCount, List.countP_cons]
      by_cases hb : es.testBit b <;> simp [hb] <;> omega
    | socErr j =>
      show s.hw idx + gtBitObsCount b os
          = s.hw idx + gtBitObsCount b (.socErr j :: os)
      simp [gtBitObsCount, List.countP_cons]

/-- Value of the SLM counter after a run on PVC: initial value plus the
number of observations carrying the SLM bit. -/
lemma hw_run_slm_pvc (hv : Bool) :
    ∀ (obs : List HwErrObs) (s : ErrCounters),
      (hw_error_stats_run true hv s obs).hw INTEL_GT_HW_ERROR_COR_SLM
        = s.hw INTEL_GT_HW_ERROR_COR_SLM
          + gtBitObsCount SLM_COR_ERR obs := by
  intro obs
  induction obs with
  | nil => intro s; simp [hw_error_stats_run, gtBitObsCount]
  | cons o os ih =>
    intro s
    have hrun : hw_error_stats_run true hv s (o :: os)
        = hw_error_stats_run true hv (hw_error_stats_step true hv s o) os := rfl
    rw [hrun, ih]
    cases o with
    | gtCorrectable es slm =>
      show (gen12_gt_correctable_hw_error_stats_update true hv slm s.hw es).hw
            INTEL_GT_HW_ERROR_COR_SLM
          + gtBitObsCount SLM_COR_ERR os
          = s.hw INTEL_GT_HW_ERROR_COR_SLM
            + gtBitObsCount SLM_COR_ERR (.gtCorrectable es slm :: os)
      rw [gt_cor_slm_pvc_exact hv slm s.hw es]
      simp only [gtBitObsCount, List.countP_cons]
      by_cases hb : es.testBit SLM_COR_ERR <;> simp [hb] <;> omega
    | socErr j =>
      show s.hw INTEL_GT_HW_ERROR_COR_SLM + gtBitObsCount SLM_COR_ERR os
          = s.hw INTEL_GT_HW_ERROR_COR_SLM
            + gtBitObsCount SLM_COR_ERR (.socErr j :: os)
      simp [gtBitObsCount, List.countP_cons]

/-- Monotonicity of every GT counter over runs, except the SLM counter
on non-PVC platforms. -/
lemma hw_run_mono (pv hv : Bool) (idx : Nat)
    (h : pv = true ∨ idx ≠ INTEL_GT_HW_ERROR_COR_SLM) :
    ∀ (obs : List HwErrObs) (s : ErrCounters),
      s.hw idx ≤ (hw_error_stats_run pv hv s obs).hw idx := by
  intro obs
  induction obs with
  | nil => intro s; exact le_refl _
  | cons o os ih =>
    intro s
    have hrun : hw_error_stats_run pv hv s (o :: os)
        = hw_error_stats_run pv hv (hw_error_stats_step pv hv s o) os := rfl
    rw [hrun]
    refine le_trans ?_ (ih (hw_error_stats_step pv hv s o))
    cases o with
    | gtCorrectable es slm =>
      exact gt_cor_update_hw_mono pv hv slm s.hw es idx h
    | socErr j => exact le_refl _

/-- C6 (claim as stated is false): on a platform that is not Ponte
Vecchio and has no error vectors, two handler invocations both observing
the `SLM_COR_ERR` bit pattern leave the SLM counter first at 5 and then
at 3 — the counter mirrors the hardware `SLM_ECC_ERROR_CNTR` register
value instead of counting observations, so it decreases (3 < 5) and
differs from the observation count (two observations, counter 3). -/
theorem claim_C6_counterexample :
    (hw_error_stats_run false false ⟨fun _ => 0, fun _ => 0⟩
      [.gtCorrectable (2 ^ SLM_COR_ERR) 5]).hw INTEL_GT_HW_ERROR_COR_SLM
        = 5 ∧
    (hw_error_stats_run false false ⟨fun _ => 0, fun _ => 0⟩
      [.gtCorrectable (2 ^ SLM_COR_ERR) 5,
       .gtCorrectable (2 ^ SLM_COR_ERR) 3]).hw INTEL_GT_HW_ERROR_COR_SLM
        = 3 ∧
    (3 : Nat) < 5 ∧
    gtBitObsCount SLM_COR_ERR
      [.gtCorrectable (2 ^ SLM_COR_ERR) 5,
       .gtCorrectable (2 ^ SLM_COR_ERR) 3] = 2 := by
  refine ⟨by decide, by decide, by decide, by decide⟩

/-- C6 (amended): over every sequence of hardware-error handler
invocations, every SOC counter and every GT correctable counter other
than the SLM counter on non-PVC platforms is non-decreasing and equals
its initial value plus the number of observations of its underlying bit
pattern (this includes the SLM counter on PVC); the SLM counter on a
non-PVC platform is instead overwritten, on each invocation observing
the SLM bit, with the value of the hardware `SLM_ECC_ERROR_CNTR`
register. -/
theorem claim_C6_counters_amended :
    (∀ (pv hv : Bool) (s : ErrCounters) (obs : List HwErrObs) (idx : Nat),
       (hw_error_stats_run pv hv s obs).soc idx
         = s.soc idx + socObsCount idx obs) ∧
    (∀ (pv hv : Bool) (s : ErrCounters) (obs : List HwErrObs) (b idx : Nat),
       (b, idx) ∈ gtCorBitCounterPairs →
       (hw_error_stats_run pv hv s obs).hw idx
         = s.hw idx + gtBitObsCount b obs) ∧
    (∀ (hv : Bool) (s : ErrCounters) (obs : List HwErrObs),
       (hw_error_stats_run true hv s obs).hw INTEL_GT_HW_ERROR_COR_SLM
         = s.hw INTEL_GT_HW_ERROR_COR_SLM + gtBitObsCount SLM_COR_ERR obs) ∧
    (∀ (pv hv : Bool) (s : ErrCounters) (obs : List HwErrObs) (idx : Nat),
       pv = true ∨ idx ≠ INTEL_GT_HW_ERROR_COR_SLM →
       s.hw idx ≤ (hw_error_stats_run pv hv s obs).hw idx) ∧
    (∀ (hv : Bool) (hw : Nat → Nat) (es slm : Nat),
       es.testBit SLM_COR_ERR = true →
       (gen12_gt_correctable_hw_error_stats_update false hv slm hw es).hw
         INTEL_GT_HW_ERROR_COR_SLM = slm) :=
  ⟨fun pv hv s obs idx => soc_run_exact pv hv obs s idx,
   fun pv hv s obs b idx hmem => hw_run_exact pv hv b idx hmem obs s,
   fun hv s obs => hw_run_slm_pvc hv obs s,
   fun pv hv s obs idx h => hw_run_mono pv hv idx h obs s,
   fun hv hw es slm hbit => gt_cor_slm_nonpvc_exact hv slm hw es hbit⟩

/-- Witness for the amended C6 theorem: one observation of the
`L3_SNG_COR_ERR` bit pattern takes the corresponding counter from 0
to 1. -/
theorem claim_C6_counters_amended_witness :
    (L3_SNG_COR_ERR, INTEL_GT_HW_ERROR_COR_L3_SNG) ∈ gtCorBitCounterPairs ∧
    (hw_error_stats_run false false ⟨fun _ => 0, fun _ => 0⟩
      [.gtCorrectable (2 ^ L3_SNG_COR_ERR) 0]).hw INTEL_GT_HW_ERROR_COR_L3_SNG
      = (fun _ => (0 : Nat)) INTEL_GT_HW_ERROR_COR_L3_SNG
        + gtBitObsCount L3_SNG_COR_ERR
            [.gtCorrectable (2 ^ L3_SNG_COR_ERR) 0] :=
  ⟨by decide,
   claim_C6_counters_amended.2.1 false false ⟨fun _ => 0, fun _ => 0⟩
     [.gtCorrectable (2 ^ L3_SNG_COR_ERR) 0]
     L3_SNG_COR_ERR INTEL_GT_HW_ERROR_COR_L3_SNG (by decide)⟩

/-- Step of the GSC correctable scan over an unset bit. -/
lemma gsc_cor_bits_skip (p : HwPlatform) (r : ErrRegs) (b : Nat)
    (bs : List Nat) (st : HwDispatchState)
    (h : r.gscErrStatus.testBit b = false) :
    gsc_cor_bits p r (b :: bs) st = gsc_cor_bits p r bs st := by
  simp [gsc_cor_bits, h]

/-- Value of the GSC correctable scan over bits that are all unset. -/
lemma gsc_cor_bits_none (p : HwPlatform) (r : ErrRegs) :
    ∀ (l : List Nat) (st : HwDispatchState),
      (∀ b ∈ l, r.gscErrStatus.testBit b = false) →
      gsc_cor_bits p r l st = st := by
  intro l
  induction l with
  | nil => intro st _; rfl
  | cons b bs ih =>
    intro st h
    rw [gsc_cor_bits_skip p r b bs st (h b (List.mem_cons_self b bs))]
    exact ih st (fun c hc => h c (List.mem_cons_of_mem b hc))

/-- Step of the GSC correctable scan over the firmware-reported bit,
for the uncorrectable sparing-exhausted cause on PVC with no previously
stored cause: it stores the cause, logs once, emits the
unrepairable-fault message once, schedules the health work once, and
touches no counter. -/
lemma gsc_cor_bits_fw_step (p : HwPlatform) (r : ErrRegs) (bs : List Nat)
    (st : HwDispatchState)
    (hbit : r.gscErrStatus.testBit GSC_COR_FW_REPORTED_ERR = true)
    (hc : st.memSparingCause = 0)
    (hdw : r.gscFwErrDw0 = BANK_SPARNG_ENA_PCLS_UNCORRECTABLE)
    (hpvc : p.isPVC = true) :
    gsc_cor_bits p r (GSC_COR_FW_REPORTED_ERR :: bs) st
      = gsc_cor_bits p r bs
          { st with memSparingCause := BANK_SPARNG_ENA_PCLS_UNCORRECTABLE,
                    hwLogs := st.hwLogs + 1,
                    unrepairableMsgs := st.unrepairableMsgs + 1,
                    memHealthScheduled := st.memHealthScheduled + 1 } := by
  show (if ¬ r.gscErrStatus.testBit GSC_COR_FW_REPORTED_ERR then
      gsc_cor_bits p r bs st
    else if GSC_COR_FW_REPORTED_ERR = GSC_COR_SRAM_ECC_SINGLE_BIT_ERR then
      gsc_cor_bits p r bs
        { st with gscHw := bump st.gscHw INTEL_GSC_HW_ERROR_COR_SRAM_ECC,
                  hwLogs := st.hwLogs + 1 }
    else if GSC_COR_FW_REPORTED_ERR = GSC_COR_FW_REPORTED_ERR then
      let cause := st.memSparingCause ||| r.gscFwErrDw0
      let st2 := { st with memSparingCause := cause,
                           hwLogs := st.hwLogs + 1 }
      if cause = 0 then st2
      else
        let st3 := if p.isPVC then log_hbm_err_info cause r.swf0 r.swf1 st2
                   else st2
        gsc_cor_bits p r bs
          { st3 with memHealthScheduled := st3.memHealthScheduled + 1 }
    else
      gsc_cor_bits p r bs { st with hwLogs := st.hwLogs + 1 }) = _
  rw [if_neg (by simp [hbit]),
      if_neg (by norm_num [GSC_COR_FW_REPORTED_ERR,
        GSC_COR_SRAM_ECC_SINGLE_BIT_ERR]),
      if_pos rfl]
  simp only [hc, hdw, hpvc, Nat.zero_or, if_true]
  rw [if_neg (by norm_num [BANK_SPARNG_ENA_PCLS_UNCORRECTABLE])]
  simp only [log_hbm_err_info]
  norm_num [BANK_CORRECTABLE_ERROR, BANK_SPARNG_ERR_MITIGATION_DOWNGRADED,
    BANK_SPARNG_DIS_PCLS_EXCEEDED, BANK_SPARNG_ENA_PCLS_UNCORRECTABLE]

/-- Value of the GSC handler for a correctable interrupt that reports
only the firmware bit with the uncorrectable sparing-exhausted cause:
the whole effect is storing the cause, one log line, one
unrepairable-fault message and one scheduled health work item. -/
lemma gsc_handler_fw_uncorrectable (p : HwPlatform) (r : ErrRegs)
    (st : HwDispatchState) (hms : p.hasMemSparing = true)
    (hpvc : p.isPVC = true)
    (hgs : r.gscErrStatus = 2 ^ GSC_COR_FW_REPORTED_ERR)
    (hdw : r.gscFwErrDw0 = BANK_SPARNG_ENA_PCLS_UNCORRECTABLE)
    (hc : st.memSparingCause = 0) :
    gen12_gsc_hw_error_handler p r .correctable st
      = { st with memSparingCause := BANK_SPARNG_ENA_PCLS_UNCORRECTABLE,
                  hwLogs := st.hwLogs + 1,
                  unrepairableMsgs := st.unrepairableMsgs + 1,
                  memHealthScheduled := st.memHealthScheduled + 1 } := by
  have hgs2 : r.gscErrStatus = 2 := by
    rw [hgs]; norm_num [GSC_COR_FW_REPORTED_ERR]
  show (if ¬ p.hasMemSparing then st
    else if r.gscErrStatus = 0 then st
    else gsc_cor_bits p r (List.range GSC_HW_ERROR_MAX_ERR_BITS) st) = _
  rw [if_neg (by simp [hms]), if_neg (by rw [hgs2]; norm_num)]
  rw [show List.range GSC_HW_ERROR_MAX_ERR_BITS
      = 0 :: GSC_COR_FW_REPORTED_ERR
          :: [2, 3, 4, 5, 6, 7, 8, 9, 10, 11, 12, 13, 14, 15] from rfl]
  rw [gsc_cor_bits_skip p r 0 _ st (by rw [hgs2]; decide)]
  rw [gsc_cor_bits_fw_step p r _ st (by rw [hgs2]; decide) hc hdw hpvc]
  exact gsc_cor_bits_none p r _ _
    (by intro b hb; rw [hgs2]; fin_cases hb <;> decide)

/-- C7 (claim as stated is false): injecting the "sparing exhausted,
uncorrectable" pattern produces exactly one unrecoverable-hardware
notification — one unrepairable-fault message, one scheduled health
work item, one memory-health degraded uevent, and nothing on a repeat
work invocation (the cause is fetched-and-zeroed) — but *no* error
counter changes at all: the firmware-reported bit maps to no counter,
so no counter increments by one as the claim states. -/
theorem claim_C7_counterexample :
    (gen12_gsc_hw_error_handler gscInjectPlatform gscInjectRegs .correctable
        gscInjectState).unrepairableMsgs = 1 ∧
    (gen12_gsc_hw_error_handler gscInjectPlatform gscInjectRegs .correctable
        gscInjectState).memHealthScheduled = 1 ∧
    (gen12_gsc_hw_error_handler gscInjectPlatform gscInjectRegs .correctable
        gscInjectState).memSparingCause
      = BANK_SPARNG_ENA_PCLS_UNCORRECTABLE ∧
    (gen12_gsc_hw_error_handler gscInjectPlatform gscInjectRegs .correctable
        gscInjectState).gscHw = gscInjectState.gscHw ∧
    (gen12_gsc_hw_error_handler gscInjectPlatform gscInjectRegs .correctable
        gscInjectState).hw = gscInjectState.hw ∧
    (gen12_gsc_hw_error_handler gscInjectPlatform gscInjectRegs .correctable
        gscInjectState).soc = gscInjectState.soc ∧
    (gen12_gsc_hw_error_handler gscInjectPlatform gscInjectRegs .correctable
        gscInjectState).sgunit = gscInjectState.sgunit ∧
    (gen12_mem_health_work BANK_SPARNG_ENA_PCLS_UNCORRECTABLE
        MEM_HEALTH_OKAY).uevent = some .degradedEcFailed ∧
    (gen12_mem_health_work BANK_SPARNG_ENA_PCLS_UNCORRECTABLE
        MEM_HEALTH_OKAY).cause = 0 ∧
    (gen12_mem_health_work 0 MEM_HEALTH_DEGRADED).uevent = none :=
  ⟨by decide, by decide, by decide, rfl, rfl, rfl, rfl, by decide, by decide,
   by decide⟩

/-- C7 (amended): processing a fatal memory-subsystem cause of the
uncorrectable, sparing-exhausted kind triggers the distinct
unrecoverable-hardware notification path exactly once per reported
cause — the unrepairable-fault message and the health-work scheduling
happen once in the interrupt handler, the work sends the memory-health
degraded uevent once, and a second work invocation for the same cause
does nothing because the stored cause is fetched-and-zeroed under the
interrupt lock — but no error counter changes: the firmware-reported
bit maps to no per-type counter. -/
theorem claim_C7_mem_health_amended :
    (∀ (p : HwPlatform) (r : ErrRegs) (st : HwDispatchState),
       p.hasMemSparing = true → p.isPVC = true →
       r.gscErrStatus = 2 ^ GSC_COR_FW_REPORTED_ERR →
       r.gscFwErrDw0 = BANK_SPARNG_ENA_PCLS_UNCORRECTABLE →
       st.memSparingCause = 0 →
       gen12_gsc_hw_error_handler p r .correctable st
         = { st with
               memSparingCause := BANK_SPARNG_ENA_PCLS_UNCORRECTABLE,
               hwLogs := st.hwLogs + 1,
               unrepairableMsgs := st.unrepairableMsgs + 1,
               memHealthScheduled := st.memHealthScheduled + 1 }) ∧
    (∀ status : Nat,
       gen12_mem_health_work BANK_SPARNG_ENA_PCLS_UNCORRECTABLE status
         = { cause := 0, healthStatus := MEM_HEALTH_DEGRADED,
             uevent := some .degradedEcFailed, tainted := true }) ∧
    (∀ status : Nat,
       gen12_mem_health_work 0 status
         = { cause := 0, healthStatus := status, uevent := none,
             tainted := false }) := by
  refine ⟨?_, ?_, ?_⟩
  · intro p r st hms hpvc hgs hdw hc
    exact gsc_handler_fw_uncorrectable p r st hms hpvc hgs hdw hc
  · intro status
    norm_num [gen12_mem_health_work, BANK_CORRECTABLE_ERROR,
      BANK_SPARNG_ERR_MITIGATION_DOWNGRADED, BANK_SPARNG_DIS_PCLS_EXCEEDED,
      BANK_SPARNG_ENA_PCLS_UNCORRECTABLE]
  · intro status
    norm_num [gen12_mem_health_work]

/-- Witness for the amended C7 theorem at the concrete injection
scenario. -/
theorem claim_C7_mem_health_amended_witness :
    gscInjectPlatform.hasMemSparing = true ∧
    gscInjectPlatform.isPVC = true ∧
    gscInjectRegs.gscErrStatus = 2 ^ GSC_COR_FW_REPORTED_ERR ∧
    gscInjectRegs.gscFwErrDw0 = BANK_SPARNG_ENA_PCLS_UNCORRECTABLE ∧
    gscInjectState.memSparingCause = 0 ∧
    gen12_gsc_hw_error_handler gscInjectPlatform gscInjectRegs .correctable
        gscInjectState
      = { gscInjectState with
            memSparingCause := BANK_SPARNG_ENA_PCLS_UNCORRECTABLE,
            hwLogs := gscInjectState.hwLogs + 1,
            unrepairableMsgs := gscInjectState.unrepairableMsgs + 1,
            memHealthScheduled := gscInjectState.memHealthScheduled + 1 } :=
  ⟨rfl, rfl, rfl, rfl, rfl,
   claim_C7_mem_health_amended.1 gscInjectPlatform gscInjectRegs
     gscInjectState rfl rfl rfl rfl rfl⟩

/-- C5: if a top-level pending bit for a hardware-error class is
asserted but the corresponding second-level error-status register reads
zero, the dispatch cycle logs exactly one driver-internal anomaly (the
"blank" report), invokes zero per-bit error handlers, updates no error
counter, schedules no work, and returns normally — stated both for the
per-class `DEV_ERR_STAT` read in `gen12_hw_error_source_handler` and
for the `ERR_STAT_GT_REG` read in `gen12_gt_hw_error_handler` on
platforms without error vectors. -/
theorem claim_C5_blank_register (p : HwPlatform) (r : ErrRegs)
    (hwErr : HwErr) (st : HwDispatchState) :
    (r.devErrStat = 0 →
      gen12_hw_error_source_handler p r hwErr st
        = { st with driverLogs := st.driverLogs + 1 }) ∧
    (p.hasGtErrorVectors = false → r.errStatGT = 0 →
      gen12_gt_hw_error_handler p r hwErr st
        = { st with driverLogs := st.driverLogs + 1 }) := by
  constructor
  · intro h
    unfold gen12_hw_error_source_handler
    rw [if_pos h]
  · intro hv h
    unfold gen12_gt_hw_error_handler
    rw [if_pos ⟨by simp [hv], h⟩]

/-- Witness for C5 on a concrete state with both second-level registers
blank: one anomaly log, no bit dispatched, no counter touched. -/
theorem claim_C5_blank_register_witness :
    ({ devErrStat := 0, errStatGT := 0, slmCnt := 0, corVctr := fun _ => 0,
       fatVctr := fun _ => 0, socMstGlb := 0, socSlvGlb := 0, socLclSlv := 0,
       socLclMst := 0, socIehHeader := 0, gscErrStatus := 0,
       gscFwErrDw0 := 0, swf0 := 0, swf1 := 0 } : ErrRegs).devErrStat = 0 ∧
    gen12_hw_error_source_handler
      { isPVC := true, hasGtErrorVectors := false, hasMemSparing := true,
        gtId := 0, socIndexValid := fun _ => true }
      { devErrStat := 0, errStatGT := 0, slmCnt := 0, corVctr := fun _ => 0,
        fatVctr := fun _ => 0, socMstGlb := 0, socSlvGlb := 0, socLclSlv := 0,
        socLclMst := 0, socIehHeader := 0, gscErrStatus := 0,
        gscFwErrDw0 := 0, swf0 := 0, swf1 := 0 }
      .fatal
      { hw := fun _ => 0, soc := fun _ => 0, sgunit := fun _ => 0,
        gscHw := fun _ => 0, memSparingCause := 0, driverLogs := 0,
        hwLogs := 0, unrepairableMsgs := 0, memHealthScheduled := 0,
        gscWorkScheduled := 0, dispatchedBits := 0 }
      = { hw := fun _ => 0, soc := fun _ => 0, sgunit := fun _ => 0,
          gscHw := fun _ => 0, memSparingCause := 0, driverLogs := 1,
          hwLogs := 0, unrepairableMsgs := 0, memHealthScheduled := 0,
          gscWorkScheduled := 0, dispatchedBits := 0 } :=
  ⟨rfl,
   (claim_C5_blank_register
     { isPVC := true, hasGtErrorVectors := false, hasMemSparing := true,
       gtId := 0, socIndexValid := fun _ => true }
     { devErrStat := 0, errStatGT := 0, slmCnt := 0, corVctr := fun _ => 0,
       fatVctr := fun _ => 0, socMstGlb := 0, socSlvGlb := 0, socLclSlv := 0,
       socLclMst := 0, socIehHeader := 0, gscErrStatus := 0,
       gscFwErrDw0 := 0, swf0 := 0, swf1 := 0 }
     .fatal
     { hw := fun _ => 0, soc := fun _ => 0, sgunit := fun _ => 0,
       gscHw := fun _ => 0, memSparingCause := 0, driverLogs := 0,
       hwLogs := 0, unrepairableMsgs := 0, memHealthScheduled := 0,
       gscWorkScheduled := 0, dispatchedBits := 0 }).1 rfl⟩

lemma do_pin_ww_fast (ce : IntelContext) (hc : ce.closed = false)
    (ha : ce.allocBit = true) (h0 : 0 < ce.pinCount) :
    __intel_context_do_pin_ww ce PinEnv.ok
      = ({ ce with pinCount := ce.pinCount + 1 }, 0,
         [.tempAcquire, .opsPrePin, .activeTmpAcquire, .pinInc,
          .activeTmpRelease, .opsPostUnpin, .tempRelease]) := by
  unfold __intel_context_do_pin_ww __intel_context_do_pin_ww_locked
  simp [ha, hc, PinEnv.ok, Nat.pos_iff_ne_zero.mp h0]

lemma do_pin_ww_first (ce : IntelContext) (hc : ce.closed = false)
    (ha : ce.allocBit = true) (h0 : ce.pinCount = 0) :
    __intel_context_do_pin_ww ce PinEnv.ok
      = ({ ce with pinCount := 1 }, 0,
         [.tempAcquire, .opsPrePin, .activeTmpAcquire, .epochActiveAcquire,
          .opsPin, .pinVisible, .activeTmpRelease, .tempRelease]) := by
  unfold __intel_context_do_pin_ww __intel_context_do_pin_ww_locked
  simp [ha, hc, h0, PinEnv.ok]

lemma do_pin_ww_first_alloc (ce : IntelContext) (hb : ce.banned = false)
    (hc : ce.closed = false) (ha : ce.allocBit = false)
    (h0 : ce.pinCount = 0) :
    __intel_context_do_pin_ww ce PinEnv.ok
      = ({ ce with allocBit := true, pinCount := 1 }, 0,
         [.opsAlloc, .tempAcquire, .opsPrePin, .activeTmpAcquire,
          .epochActiveAcquire, .opsPin, .pinVisible, .activeTmpRelease,
          .tempRelease]) := by
  unfold __intel_context_do_pin_ww intel_context_alloc_state
    __intel_context_do_pin_ww_locked
  simp [ha, hb, hc, h0, PinEnv.ok]

lemma do_unpin_release (ce : IntelContext) (sub : Nat)
    (h : ce.pinCount - sub = 0) :
    __intel_context_do_unpin ce sub
      = ({ ce with pinCount := 0 },
         [.opsUnpin, .opsPostUnpin, .ctxGet, .ctxActiveRelease, .ctxPut]) := by
  unfold __intel_context_do_unpin
  simp [h]

lemma do_unpin_dec (ce : IntelContext) (sub : Nat)
    (h : ce.pinCount - sub ≠ 0) :
    __intel_context_do_unpin ce sub
      = ({ ce with pinCount := ce.pinCount - sub }, []) := by
  unfold __intel_context_do_unpin
  simp [h]

lemma ctx_run_middle :
    ∀ (ops : List PinOp) (ce : IntelContext),
      ce.banned = false → ce.closed = false → ce.allocBit = true →
      0 < ce.pinCount →
      pin_seq_wf PinEnv.ok ce ops = true →
      (∀ n, 0 < n → n < ops.length →
        0 < (ctx_run PinEnv.ok ce (ops.take n)).1.pinCount) →
      (ctx_run PinEnv.ok ce ops).1.pinCount = 0 →
      countEv .opsPin (ctx_run PinEnv.ok ce ops).2 = 0 ∧
      countEv .opsUnpin (ctx_run PinEnv.ok ce ops).2 = 1 ∧
      ∃ pre, (ctx_run PinEnv.ok ce ops).2
        = pre ++ [.opsUnpin, .opsPostUnpin, .ctxGet, .ctxActiveRelease,
                  .ctxPut] := by
  intro ops
  induction ops with
  | nil =>
    intro ce _ _ _ h0 _ _ hfin
    simp [ctx_run] at hfin
    omega
  | cons op rest ih =>
    intro ce hb hc ha h0 hwf hpos hfin
    cases op with
    | pin =>
      have hstep := do_pin_ww_fast ce hc ha h0
      have hrun : ctx_run PinEnv.ok ce (.pin :: rest)
          = ((ctx_run PinEnv.ok { ce with pinCount := ce.pinCount + 1 } rest).1,
             [.tempAcquire, .opsPrePin, .activeTmpAcquire, .pinInc,
              .activeTmpRelease, .opsPostUnpin, .tempRelease]
               ++ (ctx_run PinEnv.ok { ce with pinCount := ce.pinCount + 1 }
                     rest).2) := by
        simp [ctx_run, hstep]
      have hwf2 : pin_seq_wf PinEnv.ok
          { ce with pinCount := ce.pinCount + 1 } rest = true := by
        have : pin_seq_wf PinEnv.ok ce (.pin :: rest)
            = pin_seq_wf PinEnv.ok (__intel_context_do_pin_ww ce PinEnv.ok).1
                rest := rfl
        rw [this, hstep] at hwf
        exact hwf
      have hpos2 : ∀ n, 0 < n → n < rest.length →
          0 < (ctx_run PinEnv.ok { ce with pinCount := ce.pinCount + 1 }
                (rest.take n)).1.pinCount := by
        intro n hn0 hnl
        have := hpos (n + 1) (by omega) (by simpa using Nat.succ_lt_succ hnl)
        rw [List.take_succ_cons] at this
        have hrun2 : (ctx_run PinEnv.ok ce (.pin :: rest.take n)).1
            = (ctx_run PinEnv.ok { ce with pinCount := ce.pinCount + 1 }
                (rest.take n)).1 := by
          simp [ctx_run, hstep]
        rwa [hrun2] at this
      have hfin2 : (ctx_run PinEnv.ok
          { ce with pinCount := ce.pinCount + 1 } rest).1.pinCount = 0 := by
        rw [hrun] at hfin
        exact hfin
      obtain ⟨hp, hu, pre, hpre⟩ := ih { ce with pinCount := ce.pinCount + 1 }
        (by simp [hb]) (by simp [hc]) (by simp [ha]) (by simp) hwf2 hpos2 hfin2
      rw [hrun]
      refine ⟨?_, ?_, [.tempAcquire, .opsPrePin, .activeTmpAcquire, .pinInc,
        .activeTmpRelease, .opsPostUnpin, .tempRelease] ++ pre, ?_⟩
      · unfold countEv at hp ⊢
        rw [List.count_append, hp]
        decide
      · unfold countEv at hu ⊢
        rw [List.count_append, hu]
        decide
      · rw [hpre, List.append_assoc]
    | unpin s =>
      have hwfs : (1 ≤ s ∧ s ≤ ce.pinCount) ∧
          pin_seq_wf PinEnv.ok (__intel_context_do_unpin ce s).1 rest = true := by
        have : pin_seq_wf PinEnv.ok ce (.unpin s :: rest)
            = (decide (1 ≤ s ∧ s ≤ ce.pinCount) &&
               pin_seq_wf PinEnv.ok (__intel_context_do_unpin ce s).1 rest) :=
          rfl
        rw [this] at hwf
        simp at hwf
        exact ⟨hwf.1, hwf.2⟩
      by_cases hz : ce.pinCount - s = 0
      · have hstep := do_unpin_release ce s hz
        cases rest with
        | nil =>
          have hrun : ctx_run PinEnv.ok ce [.unpin s]
              = ({ ce with pinCount := 0 },
                 [.opsUnpin, .opsPostUnpin, .ctxGet, .ctxActiveRelease,
                  .ctxPut]) := by
            simp [ctx_run, hstep]
          rw [hrun]
          exact ⟨rfl, rfl, [], rfl⟩
        | cons r rs =>
          exfalso
          have := hpos 1 (by omega) (by simp)
          have hrun : (ctx_run PinEnv.ok ce ((PinOp.unpin s :: r :: rs).take 1)).1
              = { ce with pinCount := 0 } := by
            simp [ctx_run, hstep]
          rw [hrun] at this
          simp at this
      · have hstep := do_unpin_dec ce s hz
        have hrun : ctx_run PinEnv.ok ce (.unpin s :: rest)
            = ((ctx_run PinEnv.ok { ce with pinCount := ce.pinCount - s }
                  rest).1,
               [] ++ (ctx_run PinEnv.ok
                  { ce with pinCount := ce.pinCount - s } rest).2) := by
          simp [ctx_run, hstep]
        have hpos2 : ∀ n, 0 < n → n < rest.length →
            0 < (ctx_run PinEnv.ok { ce with pinCount := ce.pinCount - s }
                  (rest.take n)).1.pinCount := by
          intro n hn0 hnl
          have := hpos (n + 1) (by omega) (by simpa using Nat.succ_lt_succ hnl)
          rw [List.take_succ_cons] at this
          have hrun2 : (ctx_run PinEnv.ok ce (.unpin s :: rest.take n)).1
              = (ctx_run PinEnv.ok { ce with pinCount := ce.pinCount - s }
                  (rest.take n)).1 := by
            simp [ctx_run, hstep]
          rwa [hrun2] at this
        have hfin2 : (ctx_run PinEnv.ok
            { ce with pinCount := ce.pinCount - s } rest).1.pinCount = 0 := by
          rw [hrun] at hfin
          exact hfin
        have hwf2 : pin_seq_wf PinEnv.ok
            { ce with pinCount := ce.pinCount - s } rest = true := by
          have h2 := hwfs.2
          rw [hstep] at h2
          exact h2
        obtain ⟨hp, hu, pre, hpre⟩ := ih { ce with pinCount := ce.pinCount - s }
          (by simp [hb]) (by simp [hc]) (by simp [ha]) (by simp; omega)
          hwf2 hpos2 hfin2
        rw [hrun]
        refine ⟨?_, ?_, pre, ?_⟩
        · unfold countEv at hp ⊢
          rw [List.count_append, hp]
          decide
        · unfold countEv at hu ⊢
          rw [List.count_append, hu]
          decide
        · rw [hpre]
          rfl

/-- Claim C1 — counterexample to the claim as stated. The claim asks for
exactly one allocation and one release over every sequence whose NET pin
count returns to zero; a sequence with two pin/unpin excursions
(`[pin, unpin 1, pin, unpin 1]`) has net zero pins yet runs the epoch
hardware pin (`ce->ops->pin`) twice and the epoch release
(`ce->ops->unpin`) twice, once per excursion. -/
theorem claim_C1_counterexample :
    pin_seq_wf PinEnv.ok ⟨0, true, false, false⟩
        [.pin, .unpin 1, .pin, .unpin 1] = true ∧
    (ctx_run PinEnv.ok ⟨0, true, false, false⟩
        [.pin, .unpin 1, .pin, .unpin 1]).1.pinCount = 0 ∧
    countEv .opsPin (ctx_run PinEnv.ok ⟨0, true, false, false⟩
        [.pin, .unpin 1, .pin, .unpin 1]).2 = 2 ∧
    countEv .opsUnpin (ctx_run PinEnv.ok ⟨0, true, false, false⟩
        [.pin, .unpin 1, .pin, .unpin 1]).2 = 2 := by
  decide

/-- Claim C1 (amended): over one pin excursion — a well-formed sequence
of pin/unpin calls on an unpinned, allocated, unbanned, unclosed context
whose running pin count stays positive strictly inside the sequence and
returns to zero at its end — the epoch hardware resources are acquired
exactly once (`ce->ops->pin`) and released exactly once
(`ce->ops->unpin`). The first pin alone runs the allocation path, making
the pin count visible (`atomic_inc`) only after `ce->ops->pin` returned,
as the leading trace block shows; every later pin only increments the
counter (`atomic_add_unless`). The releasing unpin ends the trace with
`intel_context_get` taken before `intel_context_active_release` and
dropped (`intel_context_put`) only after it, so the context cannot be
freed mid-release. -/
theorem claim_C1_pin_lifecycle_amended (ops : List PinOp)
    (ce : IntelContext) (hb : ce.banned = false) (hc : ce.closed = false)
    (ha : ce.allocBit = true) (h0 : ce.pinCount = 0) (hne : ops ≠ [])
    (hwf : pin_seq_wf PinEnv.ok ce ops = true)
    (hpos : ∀ n, 0 < n → n < ops.length →
      0 < (ctx_run PinEnv.ok ce (ops.take n)).1.pinCount)
    (hfin : (ctx_run PinEnv.ok ce ops).1.pinCount = 0) :
    countEv .opsPin (ctx_run PinEnv.ok ce ops).2 = 1 ∧
    countEv .opsUnpin (ctx_run PinEnv.ok ce ops).2 = 1 ∧
    (∃ suf, (ctx_run PinEnv.ok ce ops).2
      = [.tempAcquire, .opsPrePin, .activeTmpAcquire, .epochActiveAcquire,
         .opsPin, .pinVisible, .activeTmpRelease, .tempRelease] ++ suf) ∧
    (∃ pre, (ctx_run PinEnv.ok ce ops).2
      = pre ++ [.opsUnpin, .opsPostUnpin, .ctxGet, .ctxActiveRelease,
                .ctxPut]) := by
  match ops, hne with
  | .unpin s :: rest, _ =>
    exfalso
    have : pin_seq_wf PinEnv.ok ce (.unpin s :: rest)
        = (decide (1 ≤ s ∧ s ≤ ce.pinCount) &&
           pin_seq_wf PinEnv.ok (__intel_context_do_unpin ce s).1 rest) :=
      rfl
    rw [this] at hwf
    simp at hwf
    omega
  | .pin :: rest, _ =>
    have hstep := do_pin_ww_first ce hc ha h0
    have hrun : ctx_run PinEnv.ok ce (.pin :: rest)
        = ((ctx_run PinEnv.ok { ce with pinCount := 1 } rest).1,
           [.tempAcquire, .opsPrePin, .activeTmpAcquire, .epochActiveAcquire,
            .opsPin, .pinVisible, .activeTmpRelease, .tempRelease]
             ++ (ctx_run PinEnv.ok { ce with pinCount := 1 } rest).2) := by
      simp [ctx_run, hstep]
    have hwf2 : pin_seq_wf PinEnv.ok { ce with pinCount := 1 } rest = true := by
      have : pin_seq_wf PinEnv.ok ce (.pin :: rest)
          = pin_seq_wf PinEnv.ok (__intel_context_do_pin_ww ce PinEnv.ok).1
              rest := rfl
      rw [this, hstep] at hwf
      exact hwf
    have hpos2 : ∀ n, 0 < n → n < rest.length →
        0 < (ctx_run PinEnv.ok { ce with pinCount := 1 }
              (rest.take n)).1.pinCount := by
      intro n hn0 hnl
      have := hpos (n + 1) (by omega) (by simpa using Nat.succ_lt_succ hnl)
      rw [List.take_succ_cons] at this
      have hrun2 : (ctx_run PinEnv.ok ce (.pin :: rest.take n)).1
          = (ctx_run PinEnv.ok { ce with pinCount := 1 } (rest.take n)).1 := by
        simp [ctx_run, hstep]
      rwa [hrun2] at this
    have hfin2 : (ctx_run PinEnv.ok
        { ce with pinCount := 1 } rest).1.pinCount = 0 := by
      rw [hrun] at hfin
      exact hfin
    obtain ⟨hp, hu, pre, hpre⟩ := ctx_run_middle rest { ce with pinCount := 1 }
      (by simp [hb]) (by simp [hc]) (by simp [ha]) (by simp) hwf2 hpos2 hfin2
    rw [hrun]
    refine ⟨?_, ?_,
      ⟨(ctx_run PinEnv.ok { ce with pinCount := 1 } rest).2, rfl⟩,
      [.tempAcquire, .opsPrePin, .activeTmpAcquire, .epochActiveAcquire,
       .opsPin, .pinVisible, .activeTmpRelease, .tempRelease] ++ pre, ?_⟩
    · unfold countEv at hp ⊢
      rw [List.count_append, hp]
      decide
    · unfold countEv at hu ⊢
      rw [List.count_append, hu]
      decide
    · rw [hpre, List.append_assoc]

/-- Claim C1 (amended) at a concrete excursion: two pins then one
`unpin 2` on a fresh allocated context acquire the epoch resources once
and release them once, with the first-pin block opening the trace and
the release block closing it. -/
theorem claim_C1_pin_lifecycle_amended_witness :
    countEv .opsPin (ctx_run PinEnv.ok ⟨0, true, false, false⟩
        [.pin, .pin, .unpin 2]).2 = 1 ∧
    countEv .opsUnpin (ctx_run PinEnv.ok ⟨0, true, false, false⟩
        [.pin, .pin, .unpin 2]).2 = 1 ∧
    (∃ suf, (ctx_run PinEnv.ok ⟨0, true, false, false⟩
        [.pin, .pin, .unpin 2]).2
      = [.tempAcquire, .opsPrePin, .activeTmpAcquire, .epochActiveAcquire,
         .opsPin, .pinVisible, .activeTmpRelease, .tempRelease] ++ suf) ∧
    (∃ pre, (ctx_run PinEnv.ok ⟨0, true, false, false⟩
        [.pin, .pin, .unpin 2]).2
      = pre ++ [.opsUnpin, .opsPostUnpin, .ctxGet, .ctxActiveRelease,
                .ctxPut]) :=
  claim_C1_pin_lifecycle_amended [.pin, .pin, .unpin 2]
    ⟨0, true, false, false⟩ rfl rfl rfl rfl (by decide) (by decide)
    (by
      intro n h1 h2
      have h3 : n < 3 := h2
      clear h2
      interval_cases n <;> decide)
    (by decide)

/-- Claim C2 — counterexample to the claim as stated. The banned check
sits inside `intel_context_alloc_state`, which runs only while
`CONTEXT_ALLOC_BIT` is clear: a banned context whose state is already
allocated is pinned successfully (return 0, pin count goes up), not
refused with `-EIO`. -/
theorem claim_C2_counterexample :
    (__intel_context_do_pin_ww ⟨0, true, true, false⟩ PinEnv.ok).2.1 = 0 ∧
    (__intel_context_do_pin_ww ⟨0, true, true, false⟩
        PinEnv.ok).1.pinCount = 1 := by
  decide

/-- Claim C2 (amended): pin refuses a banned context with `-EIO` only on
the first pin, while `CONTEXT_ALLOC_BIT` is still clear, and then changes
nothing and acquires nothing; once the bit is set a banned context pins
normally. A closed context is always refused with `-ENOENT`, with the pin
count unchanged and every temporary acquisition of the refusing call
matched by its release (and no epoch acquisition at all). -/
theorem claim_C2_pin_refusal_amended (ce : IntelContext) :
    (ce.allocBit = false → ce.banned = true →
      (__intel_context_do_pin_ww ce PinEnv.ok).2.1 = -EIO_errno ∧
      (__intel_context_do_pin_ww ce PinEnv.ok).1 = ce ∧
      (__intel_context_do_pin_ww ce PinEnv.ok).2.2 = []) ∧
    (ce.closed = true → ce.banned = false →
      (__intel_context_do_pin_ww ce PinEnv.ok).2.1 = -ENOENT ∧
      (__intel_context_do_pin_ww ce PinEnv.ok).1.pinCount = ce.pinCount ∧
      countEv .opsPin (__intel_context_do_pin_ww ce PinEnv.ok).2.2 = 0 ∧
      countEv .epochActiveAcquire
        (__intel_context_do_pin_ww ce PinEnv.ok).2.2 = 0 ∧
      countEv .tempAcquire (__intel_context_do_pin_ww ce PinEnv.ok).2.2
        = countEv .tempRelease (__intel_context_do_pin_ww ce PinEnv.ok).2.2 ∧
      countEv .activeTmpAcquire (__intel_context_do_pin_ww ce PinEnv.ok).2.2
        = countEv .activeTmpRelease
            (__intel_context_do_pin_ww ce PinEnv.ok).2.2) := by
  constructor
  · intro ha hb
    unfold __intel_context_do_pin_ww intel_context_alloc_state
    simp [ha, hb, PinEnv.ok, EIO_errno]
  · intro hc hb
    by_cases ha : ce.allocBit
    · have : __intel_context_do_pin_ww ce PinEnv.ok
          = (ce, -ENOENT,
             [.tempAcquire, .opsPrePin, .activeTmpAcquire,
              .activeTmpRelease, .opsPostUnpin, .tempRelease]) := by
        unfold __intel_context_do_pin_ww __intel_context_do_pin_ww_locked
        simp [ha, hc, PinEnv.ok]
      rw [this]
      exact ⟨rfl, rfl, rfl, rfl, rfl, rfl⟩
    · have : __intel_context_do_pin_ww ce PinEnv.ok
          = ({ ce with allocBit := true }, -ENOENT,
             [.opsAlloc, .tempAcquire, .opsPrePin, .activeTmpAcquire,
              .activeTmpRelease, .opsPostUnpin, .tempRelease]) := by
        unfold __intel_context_do_pin_ww intel_context_alloc_state
          __intel_context_do_pin_ww_locked
        simp [ha, hb, hc, PinEnv.ok]
      rw [this]
      exact ⟨rfl, rfl, rfl, rfl, rfl, rfl⟩

/-- Claim C2 (amended) at concrete contexts: a banned unallocated context
is refused with `-EIO` and left untouched; a closed allocated context is
refused with `-ENOENT` with its pin count intact and balanced temporary
acquisitions. -/
theorem claim_C2_pin_refusal_amended_witness :
    ((__intel_context_do_pin_ww ⟨3, false, true, true⟩ PinEnv.ok).2.1
        = -EIO_errno ∧
     (__intel_context_do_pin_ww ⟨3, false, true, true⟩ PinEnv.ok).1
        = ⟨3, false, true, true⟩ ∧
     (__intel_context_do_pin_ww ⟨3, false, true, true⟩ PinEnv.ok).2.2
        = []) ∧
    ((__intel_context_do_pin_ww ⟨3, true, false, true⟩ PinEnv.ok).2.1
        = -ENOENT ∧
     (__intel_context_do_pin_ww ⟨3, true, false, true⟩
        PinEnv.ok).1.pinCount = 3 ∧
     countEv .opsPin
       (__intel_context_do_pin_ww ⟨3, true, false, true⟩ PinEnv.ok).2.2 = 0 ∧
     countEv .epochActiveAcquire
       (__intel_context_do_pin_ww ⟨3, true, false, true⟩ PinEnv.ok).2.2 = 0 ∧
     countEv .tempAcquire
         (__intel_context_do_pin_ww ⟨3, true, false, true⟩ PinEnv.ok).2.2
       = countEv .tempRelease
         (__intel_context_do_pin_ww ⟨3, true, false, true⟩ PinEnv.ok).2.2 ∧
     countEv .activeTmpAcquire
         (__intel_context_do_pin_ww ⟨3, true, false, true⟩ PinEnv.ok).2.2
       = countEv .activeTmpRelease
         (__intel_context_do_pin_ww ⟨3, true, false, true⟩ PinEnv.ok).2.2) :=
  ⟨(claim_C2_pin_refusal_amended ⟨3, false, true, true⟩).1 rfl rfl,
   (claim_C2_pin_refusal_amended ⟨3, true, false, true⟩).2 rfl rfl⟩

/-- The return code of a backoff is success, `-EINVAL` (no contended
object recorded) or the slow-lock result. -/
lemma backoff_snd (ww : WwCtx) (s : Int) :
    (i915_gem_ww_ctx_backoff ww s).2 = 0 ∨
    (i915_gem_ww_ctx_backoff ww s).2 = -EINVAL ∨
    (i915_gem_ww_ctx_backoff ww s).2 = s := by
  unfold i915_gem_ww_ctx_backoff
  cases ww.contended with
  | none => simp
  | some obj =>
    simp only [i915_gem_ww_ctx_unlock_all]
    split_ifs <;> simp_all

/-- `do_pin_retry` never returns `-EDEADLK` when no slow lock does: a
non-`-EDEADLK` attempt error is returned as is, and a failing backoff
returns `-EINVAL` or the slow-lock error. -/
lemma do_pin_retry_no_edeadlk :
    ∀ (atts : List WwAttempt) (ww : WwCtx),
      (∀ a ∈ atts, a.slowErr ≠ -EDEADLK) →
      ∀ ww2 err, do_pin_retry ww atts = some (ww2, err) →
        err ≠ -EDEADLK := by
  intro atts
  induction atts with
  | nil =>
    intro ww _ ww2 err h
    simp [do_pin_retry] at h
  | cons a rest ih =>
    intro ww hs ww2 err h
    by_cases he : a.err = -EDEADLK
    · have hrw : do_pin_retry ww (a :: rest)
          = (if (i915_gem_ww_ctx_backoff (ww_record ww a) a.slowErr).2 = 0
             then do_pin_retry
               (i915_gem_ww_ctx_backoff (ww_record ww a) a.slowErr).1 rest
             else some ((i915_gem_ww_ctx_backoff (ww_record ww a) a.slowErr).1,
               (i915_gem_ww_ctx_backoff (ww_record ww a) a.slowErr).2)) := by
        simp [do_pin_retry, he]
      rw [hrw] at h
      by_cases hz : (i915_gem_ww_ctx_backoff (ww_record ww a) a.slowErr).2 = 0
      · rw [if_pos hz] at h
        exact ih _ (fun b hb => hs b (List.mem_cons_of_mem a hb)) ww2 err h
      · rw [if_neg hz] at h
        have h2 := Option.some.inj h
        have herr : (i915_gem_ww_ctx_backoff (ww_record ww a) a.slowErr).2
            = err := congrArg Prod.snd h2
        rcases backoff_snd (ww_record ww a) a.slowErr with h3 | h3 | h3
        · exact absurd h3 hz
        · rw [herr] at h3
          rw [h3]
          unfold EINVAL EDEADLK
          omega
        · rw [herr] at h3
          rw [h3]
          exact hs a (List.mem_cons_self a rest)
    · have hrw : do_pin_retry ww (a :: rest)
          = some (ww_record ww a, a.err) := by
        simp [do_pin_retry, he]
      rw [hrw] at h
      have h2 := Option.some.inj h
      have herr : a.err = err := congrArg Prod.snd h2
      rw [← herr]
      exact he

/-- Claim C3: the pin operation never surfaces the deadlock-avoidance
abort. Whenever the oracle slow locks never report `-EDEADLK` (as
`dma_resv_lock_slow_interruptible` never does), every terminating run of
`__intel_context_do_pin` returns a code other than `-EDEADLK`; a backoff
invoked with a contended object recorded leaves at most that object
locked (the whole batch is released) and only fails with the
interruptible slow lock's own error; an `-EDEADLK` transaction followed
by a successful backoff retries the pin from scratch on the backed-off
state; and every non-`-EDEADLK` transaction error is propagated to the
caller unchanged. -/
theorem claim_C3_retry_contract (atts : List WwAttempt) (ww2 : WwCtx)
    (err : Int) (hs : ∀ a ∈ atts, a.slowErr ≠ -EDEADLK)
    (hres : __intel_context_do_pin atts = some (ww2, err)) :
    err ≠ -EDEADLK ∧
    (∀ (ww : WwCtx) (o : Nat) (s : Int), ww.contended = some o →
      ((i915_gem_ww_ctx_backoff ww s).1.objList = [] ∨
       (i915_gem_ww_ctx_backoff ww s).1.objList = [o]) ∧
      ((i915_gem_ww_ctx_backoff ww s).2 ≠ 0 →
        ww.intr = true ∧ (i915_gem_ww_ctx_backoff ww s).2 = s)) ∧
    (∀ (ww : WwCtx) (a : WwAttempt) (rest : List WwAttempt),
      a.err = -EDEADLK →
      (i915_gem_ww_ctx_backoff (ww_record ww a) a.slowErr).2 = 0 →
      do_pin_retry ww (a :: rest)
        = do_pin_retry
            (i915_gem_ww_ctx_backoff (ww_record ww a) a.slowErr).1 rest) ∧
    (∀ (ww : WwCtx) (a : WwAttempt) (rest : List WwAttempt),
      a.err ≠ -EDEADLK →
      do_pin_retry ww (a :: rest) = some (ww_record ww a, a.err)) := by
  refine ⟨?_, ?_, ?_, ?_⟩
  · unfold __intel_context_do_pin at hres
    cases hdp : do_pin_retry (i915_gem_ww_ctx_init true) atts with
    | none =>
      rw [hdp] at hres
      simp at hres
    | some p =>
      rw [hdp] at hres
      obtain ⟨ww1, e1⟩ := p
      simp at hres
      have hne := do_pin_retry_no_edeadlk atts (i915_gem_ww_ctx_init true)
        hs ww1 e1 hdp
      rwa [hres.2] at hne
  · intro ww o s hco
    unfold i915_gem_ww_ctx_backoff
    rw [hco]
    simp only [i915_gem_ww_ctx_unlock_all]
    by_cases hi : ww.intr
    · by_cases hsz : s = 0
      · simp [hi, hsz]
        by_cases hev : ww.contendedEvict <;> simp [hev]
      · simp [hi, hsz]
    · simp [hi]
      by_cases hev : ww.contendedEvict <;> simp [hev]
  · intro ww a rest he hb
    simp [do_pin_retry, he, hb]
  · intro ww a rest he
    simp [do_pin_retry, he]

/-- Claim C3 at a concrete run: a first transaction aborts with
`-EDEADLK` after locking two objects, the backoff releases both and
keeps the contended one, and the retried transaction succeeds; the
overall pin returns 0 with every lock dropped. -/
theorem claim_C3_retry_contract_witness :
    (0 : Int) ≠ -EDEADLK ∧
    (∀ (ww : WwCtx) (o : Nat) (s : Int), ww.contended = some o →
      ((i915_gem_ww_ctx_backoff ww s).1.objList = [] ∨
       (i915_gem_ww_ctx_backoff ww s).1.objList = [o]) ∧
      ((i915_gem_ww_ctx_backoff ww s).2 ≠ 0 →
        ww.intr = true ∧ (i915_gem_ww_ctx_backoff ww s).2 = s)) ∧
    (∀ (ww : WwCtx) (a : WwAttempt) (rest : List WwAttempt),
      a.err = -EDEADLK →
      (i915_gem_ww_ctx_backoff (ww_record ww a) a.slowErr).2 = 0 →
      do_pin_retry ww (a :: rest)
        = do_pin_retry
            (i915_gem_ww_ctx_backoff (ww_record ww a) a.slowErr).1 rest) ∧
    (∀ (ww : WwCtx) (a : WwAttempt) (rest : List WwAttempt),
      a.err ≠ -EDEADLK →
      do_pin_retry ww (a :: rest) = some (ww_record ww a, a.err)) :=
  claim_C3_retry_contract
    [⟨-EDEADLK, [1, 2], some 2, false, 0⟩, ⟨0, [3], none, false, 0⟩]
    ⟨[], none, false, true⟩ 0 (by decide) (by decide)
